import Mathlib

/-!
Shallow embedding of the `data_analyst2` repository's core pipeline
(`src/api/index.py`, `src/services/data_processor.py`,
`src/services/web_scraper.py`) and proofs about the claims of its
specification.

Conventions of the embedding:
* Python strings are Lean `String`s (the data is ASCII, so character-wise
  lower-casing agrees with `str.lower`).
* Python `None` and pandas `NaN` cell values are the `CellValue.vNone`
  constructor; dictionaries are insertion-ordered association lists.
* Python floats are modelled as exact rationals `ℚ` where the code only
  parses and compares decimal literals, and as real numbers `ℝ` where the
  code computes a Pearson correlation (which involves a square root).
* Fallible Python code (attribute errors, iteration over non-iterables)
  is modelled with `Except String`, the error string being the Python
  exception message `str(e)`.
-/

/-! ## String utilities mirroring Python `str` methods and `re` patterns -/

/-- Python's substring test `needle in hay` on lists of characters. -/
def listContainsSub (needle hay : List Char) : Bool :=
  hay.tails.any (fun t => needle.isPrefixOf t)

/-- Python's substring test `needle in hay` for strings. -/
def strContains (hay needle : String) : Bool :=
  listContainsSub needle.toList hay.toList

/-- Python `str.replace(c, '')`: remove every occurrence of one character. -/
def removeChar (c : Char) (s : String) : String :=
  ⟨s.toList.filter (fun x => x ≠ c)⟩

/-- ASCII lower-casing of one character, as `str.lower` does on ASCII. -/
def charLower (c : Char) : Char :=
  if 'A' ≤ c ∧ c ≤ 'Z' then Char.ofNat (c.toNat + 32) else c

/-- Python `str.lower()` (ASCII fragment; all data in this system is ASCII). -/
def strLower (s : String) : String :=
  ⟨s.toList.map charLower⟩

/-- Python `str.strip()`: remove leading and trailing whitespace. -/
def strStrip (s : String) : String :=
  ⟨((s.toList.dropWhile Char.isWhitespace).reverse.dropWhile
      Char.isWhitespace).reverse⟩

/-- A character of Python's regex class `\w` (ASCII fragment). -/
def isWordChar (c : Char) : Bool :=
  c.isAlphanum || c = '_'

/-- A character of Python's regex class `[\d.]`. -/
def isDigitDot (c : Char) : Bool :=
  c.isDigit || c = '.'

/-- Numeric value of a list of decimal digit characters. -/
def digitsToNat (l : List Char) : ℕ :=
  l.foldl (fun acc c => 10 * acc + (c.toNat - '0'.toNat)) 0

/-- The decimal digit character for `n % 10`. -/
def digitChar10 (n : ℕ) : Char :=
  Char.ofNat ('0'.toNat + n % 10)

/-- Decimal digits of `n`, least significant first (`fuel` bounds the
recursion; it is always called with `fuel ≥ n`). -/
def natDigitsRev : ℕ → ℕ → List Char
  | 0, _ => []
  | _ + 1, 0 => []
  | fuel + 1, n => digitChar10 n :: natDigitsRev fuel (n / 10)

/-- Python `str(n)` for a natural number. -/
def natToStr (n : ℕ) : String :=
  if n = 0 then "0" else ⟨(natDigitsRev n n).reverse⟩

/-- Python `str(n)` for an integer. -/
def intToStr (n : ℤ) : String :=
  (if n < 0 then "-" else "") ++ natToStr n.natAbs

/-- Accumulator worker for `runsOf`; `cur` holds the current run reversed. -/
def runsOfAux (p : Char → Bool) : List Char → List Char → List (List Char)
  | cur, [] => if cur.isEmpty then [] else [cur.reverse]
  | cur, c :: cs =>
    if p c then runsOfAux p (c :: cur) cs
    else if cur.isEmpty then runsOfAux p [] cs
    else cur.reverse :: runsOfAux p [] cs

/-- Maximal runs of characters satisfying `p`, in order: the semantics of
`re.findall` for a pattern of the form `[...]+`. -/
def runsOf (p : Char → Bool) (l : List Char) : List (List Char) :=
  runsOfAux p [] l

/-- `re.findall(r'[\d.]+', s)`: the maximal runs of digits and dots. -/
def numberRuns (s : String) : List (List Char) :=
  runsOf isDigitDot s.toList

/-- `re.findall(r'\d+', s)`: the maximal runs of digits. -/
def digitRuns (s : String) : List (List Char) :=
  runsOf Char.isDigit s.toList

/-- Python `float(...)` applied to a run of digits and dots (the only
characters such a run can contain): at most one dot and at least one digit,
value read as a decimal literal. -/
def pyFloatOfRun (l : List Char) : Option ℚ :=
  match l.count '.' with
  | 0 => if l = [] then none else some (digitsToNat l : ℚ)
  | 1 =>
    let ip := l.takeWhile (fun c => c ≠ '.')
    let fp := (l.dropWhile (fun c => c ≠ '.')).drop 1
    if ip = [] ∧ fp = [] then none
    else some ((digitsToNat ip : ℚ) + (digitsToNat fp : ℚ) / (10 : ℚ) ^ fp.length)
  | _ => none

/-- One step of `re.search(r'\b(19|20)\d{2}\b', s)`: try to match a
4-digit year starting at the head of `l`, where `prev` is the character
just before `l` (for the leading word boundary). -/
def yearSearchAux (prev : Option Char) : List Char → Option ℤ
  | c1 :: c2 :: c3 :: c4 :: rest =>
    if (match prev with | none => true | some p => !isWordChar p)
        && ((c1 = '1' && c2 = '9') || (c1 = '2' && c2 = '0'))
        && c3.isDigit && c4.isDigit
        && (match rest.head? with | none => true | some n => !isWordChar n) then
      some (digitsToNat [c1, c2, c3, c4] : ℤ)
    else yearSearchAux (some c1) (c2 :: c3 :: c4 :: rest)
  | _ => none

/-- `re.search(r'\b(19|20)\d{2}\b', s)`: leftmost 4-digit year in
1900–2099 delimited by word boundaries, as an integer. -/
def yearSearch (s : String) : Option ℤ :=
  yearSearchAux none s.toList

/-- Drop elements through the first occurrence of `c`; `none` when `c`
does not occur. -/
def dropThrough (c : Char) : List Char → Option (List Char)
  | [] => none
  | x :: xs => if x = c then some xs else dropThrough c xs

/-- Fuel-bounded worker for `stripDelims`; the list shrinks every step, so
`fuel = l.length` always suffices. -/
def stripDelimsGo (o c : Char) : ℕ → List Char → List Char
  | 0, l => l
  | _ + 1, [] => []
  | fuel + 1, x :: xs =>
    if x = o then
      match dropThrough c xs with
      | some rest => stripDelimsGo o c fuel rest
      | none => x :: stripDelimsGo o c fuel xs
    else x :: stripDelimsGo o c fuel xs

/-- `re.sub(r'\[.*?\]', '', s)`-style non-greedy deletion: remove every
segment from an opening delimiter `o` to the nearest following closing
delimiter `c`; an unmatched opener is kept verbatim. -/
def stripDelims (o c : Char) (l : List Char) : List Char :=
  stripDelimsGo o c l.length l

/-- `_clean_film_title` (web_scraper.py), also the title cleaning in
`_extract_title_from_row` (data_processor.py): strip `[...]` citations,
strip `(...)` asides, trim whitespace. -/
def cleanFilmTitle (s : String) : String :=
  strStrip ⟨stripDelims '(' ')' (stripDelims '[' ']' s.toList)⟩

/-! ## Data model: cell values and insertion-ordered records

A `Record` models a Python `dict` as produced by the Table Normalizer and
consumed (through a one-row `pandas.DataFrame` view) by the Statistics
Engine: an association list whose key order is dict insertion order. -/

/-- One cell value: a parsed integer, a raw string, or `None`/`NaN`. -/
inductive CellValue where
  | vInt (n : ℤ)
  | vStr (s : String)
  | vNone
deriving DecidableEq

/-- A normalized table row: field name to cell value, insertion-ordered. -/
abbrev Record := List (String × CellValue)

/-- Python `dict` lookup. -/
def dictLookup (r : Record) (k : String) : Option CellValue :=
  match r with
  | [] => none
  | (k', v) :: rest => if k' = k then some v else dictLookup rest k

/-- Python `dict` assignment `d[k] = v`: overwrite in place (keeping the
key's original position) or append at the end. -/
def dictInsert (r : Record) (k : String) (v : CellValue) : Record :=
  match r with
  | [] => [(k, v)]
  | (k', v') :: rest =>
    if k' = k then (k', v) :: rest else (k', v') :: dictInsert rest k v

/-- Python `str(value)` on a cell value; a pandas `NaN` prints as `nan`
(never relevant to the claims, which only stringify integers and strings). -/
def pyStr (v : CellValue) : String :=
  match v with
  | .vInt n => intToStr n
  | .vStr s => s
  | .vNone => "nan"

/-- `pd.isna` on a cell value. -/
def cellIsNa (v : CellValue) : Bool :=
  match v with
  | .vNone => true
  | _ => false

/-- Python truthiness of a cell value (`None` and `0` and `""` are falsy). -/
def cellTruthy (v : CellValue) : Bool :=
  match v with
  | .vInt n => n ≠ 0
  | .vStr s => s ≠ ""
  | .vNone => false

/-- Column order of `pd.DataFrame(data)`: the union of the records' keys in
first-appearance order. -/
def dfColumns (data : List Record) : List String :=
  data.foldl (fun acc r =>
    r.foldl (fun a kv => if a.contains kv.1 then a else a ++ [kv.1]) acc) []

/-- One `DataFrame` row of `data` seen through the column list `cols`:
keys a record lacks read as `NaN`. -/
def dfRow (cols : List String) (r : Record) : List CellValue :=
  cols.map (fun c => (dictLookup r c).getD .vNone)

/-! ## Field Extractor (`data_processor.py`) -/

/-- `DataProcessor._extract_year_from_row`: scan the row's values in column
order, skipping `NaN`, and return the first 4-digit year (1900–2099, word
delimited) found in the value's string form. -/
def extractYearFromRow (vals : List CellValue) : Option ℤ :=
  match vals with
  | [] => none
  | v :: rest =>
    if cellIsNa v then extractYearFromRow rest
    else
      match yearSearch (pyStr v) with
      | some y => some y
      | none => extractYearFromRow rest

/-- The revenue keywords of `_extract_revenue_billions`. -/
def revenueKeywords : List String := ["billion", "gross", "revenue"]

/-- The value-text of `_extract_revenue_billions`: `str(value)` with
commas and dollar signs stripped. -/
def revenueValueStr (v : CellValue) : String :=
  removeChar '$' (removeChar ',' (pyStr v))

/-- The unit scaling of `_extract_revenue_billions`: `billion` as-is,
else `million` per-thousand, else large bare numbers per-thousand. -/
def revenueScale (valueStr : String) (num : ℚ) : ℚ :=
  if strContains (strLower valueStr) "billion" then num
  else if strContains (strLower valueStr) "million" then num / 1000
  else if num > 1000 then num / 1000
  else num

/-- `DataProcessor._extract_revenue_billions`: scan the row's values in
column order, skipping `NaN`; for each value, strip commas and dollar
signs; if the stripped text contains a revenue keyword (case-insensitive)
and its first run of digits/dots parses as a float, return that number
scaled to billions; a candidate with no parseable number is skipped and
the scan continues. -/
def extractRevenueBillions (vals : List CellValue) : Option ℚ :=
  match vals with
  | [] => none
  | v :: rest =>
    if cellIsNa v then extractRevenueBillions rest
    else
      let valueStr := revenueValueStr v
      if revenueKeywords.any (fun kw => strContains (strLower valueStr) kw) then
        match (numberRuns valueStr).head? with
        | some run =>
          match pyFloatOfRun run with
          | some num => some (revenueScale valueStr num)
          | none => extractRevenueBillions rest
        | none => extractRevenueBillions rest
      else extractRevenueBillions rest

/-- The title keywords of `_extract_title_from_row`. -/
def titleKeywords : List String := ["title", "film", "movie", "name"]

/-- The keyword branch of `_extract_title_from_row`: first column whose
name contains a title keyword, its value cleaned of `[...]`/`(...)` and
trimmed. -/
def extractTitleKeyword : List (String × CellValue) → Option String
  | [] => none
  | (c, v) :: rest =>
    if titleKeywords.any (fun kw => strContains (strLower c) kw) then
      some (cleanFilmTitle (pyStr v))
    else extractTitleKeyword rest

/-- The fallback branch of `_extract_title_from_row`: first string value
longer than 3 characters, truncated to 50 characters. -/
def extractTitleFallback : List CellValue → Option String
  | [] => none
  | v :: rest =>
    match v with
    | .vStr s => if 3 < s.toList.length then some ⟨s.toList.take 50⟩
                 else extractTitleFallback rest
    | _ => extractTitleFallback rest

/-- `DataProcessor._extract_title_from_row`: prefer a title-keyword named
column, else the first long string value, else `"Unknown"`. -/
def extractTitleFromRow (cols : List String) (vals : List CellValue) : String :=
  match extractTitleKeyword (cols.zip vals) with
  | some t => t
  | none => (extractTitleFallback vals).getD "Unknown"

/-! ## Statistics Engine (`data_processor.py`) -/

/-- The condition of `count_films_before_year`'s loop body, with Python
truthiness: `if film_year and revenue and film_year < year and
revenue >= min_gross`. -/
def countRowLoop (cols : List String) (year : ℤ) (minGross : ℚ) :
    List Record → ℕ
  | [] => 0
  | r :: rs =>
    let vals := dfRow cols r
    let rest := countRowLoop cols year minGross rs
    match extractYearFromRow vals, extractRevenueBillions vals with
    | some fy, some rev =>
      if fy ≠ 0 ∧ rev ≠ 0 ∧ fy < year ∧ rev ≥ minGross then rest + 1 else rest
    | _, _ => rest

/-- `DataProcessor.count_films_before_year`: count rows whose extracted
year and revenue are truthy, year before the bound and revenue at least
the bound. -/
def countFilmsBeforeYear (data : List Record) (year : ℤ) (minGross : ℚ) : ℕ :=
  if data.isEmpty then 0 else countRowLoop (dfColumns data) year minGross data

/-- The loop of `find_earliest_film_over_amount`, tracking the earliest
qualifying year and its title. -/
def earliestRowLoop (cols : List String) (minGross : ℚ) :
    List Record → Option ℤ → String → String
  | [], _, bestTitle => bestTitle
  | r :: rs, bestYear, bestTitle =>
    let vals := dfRow cols r
    match extractYearFromRow vals, extractRevenueBillions vals with
    | some fy, some rev =>
      if fy ≠ 0 ∧ rev ≠ 0 ∧ rev ≥ minGross then
        if (match bestYear with | none => true | some b => fy < b) then
          earliestRowLoop cols minGross rs (some fy) (extractTitleFromRow cols vals)
        else earliestRowLoop cols minGross rs bestYear bestTitle
      else earliestRowLoop cols minGross rs bestYear bestTitle
    | _, _ => earliestRowLoop cols minGross rs bestYear bestTitle

/-- `DataProcessor.find_earliest_film_over_amount`: title of the
minimum-year row among rows with truthy year and revenue at least the
bound; ties go to the first such row; `"Unknown"` when none qualifies,
`"No data available"` on empty input (the final `or "Unknown"` also maps
an empty winning title to `"Unknown"`). -/
def findEarliestFilmOverAmount (data : List Record) (minGross : ℚ) : String :=
  if data.isEmpty then "No data available"
  else
    let t := earliestRowLoop (dfColumns data) minGross data none "Unknown"
    if t = "" then "Unknown" else t

/-- The mantissa part of `pd.to_numeric` string parsing: digits with at
most one decimal point, via `pyFloatOfRun`. -/
def parseMantissa (l : List Char) : Option ℚ :=
  if l.all isDigitDot then pyFloatOfRun l else none

/-- `pd.to_numeric(s, errors='coerce')` on one string: optional sign,
decimal mantissa, optional exponent; `none` models `NaN`. -/
def pdParseNum (s : String) : Option ℚ :=
  let t := (strStrip s).toList
  let sgn : ℚ := match t.head? with | some '-' => -1 | _ => 1
  let rest := match t with | '+' :: r => r | '-' :: r => r | r => r
  let mant := rest.takeWhile (fun c => c ≠ 'e' ∧ c ≠ 'E')
  let expPart := rest.dropWhile (fun c => c ≠ 'e' ∧ c ≠ 'E')
  match expPart with
  | [] => (parseMantissa mant).map (fun m => sgn * m)
  | _ :: etail =>
    let esgn : ℤ := match etail.head? with | some '-' => -1 | _ => 1
    let edigits := match etail with | '+' :: r => r | '-' :: r => r | r => r
    if edigits ≠ [] ∧ edigits.all Char.isDigit then
      (parseMantissa mant).map
        (fun m => sgn * m * (10 : ℚ) ^ (esgn * (digitsToNat edigits : ℤ)))
    else none

/-- `pd.to_numeric(value, errors='coerce')` on one cell value. -/
def pdToNumeric (v : CellValue) : Option ℚ :=
  match v with
  | .vInt n => some (n : ℚ)
  | .vStr s => pdParseNum s
  | .vNone => none

/-- `DataProcessor._find_column`: case-insensitive exact match first, then
first column containing or contained in the target. -/
def findColumn (cols : List String) (target : String) : Option String :=
  let tl := strLower target
  match cols.find? (fun c => strLower c = tl) with
  | some c => some c
  | none =>
    cols.find? (fun c => strContains (strLower c) tl || strContains tl (strLower c))

/-- The pairwise-complete numeric pairs of two resolved columns, as pandas
`Series.corr` pairs them (rows where either side coerces to `NaN` drop). -/
def corrPairs (data : List Record) (xc yc : String) : List (ℚ × ℚ) :=
  data.filterMap (fun r =>
    match pdToNumeric ((dictLookup r xc).getD .vNone),
        pdToNumeric ((dictLookup r yc).getD .vNone) with
    | some a, some b => some (a, b)
    | _, _ => none)

/-- Centered second-moment sums `(Sxy, Sxx, Syy)` of a list of pairs. -/
def pearsonSums (ps : List (ℚ × ℚ)) : ℚ × ℚ × ℚ :=
  let xm : ℚ := (ps.map Prod.fst).sum / ps.length
  let ym : ℚ := (ps.map Prod.snd).sum / ps.length
  ((ps.map (fun p => (p.1 - xm) * (p.2 - ym))).sum,
   (ps.map (fun p => (p.1 - xm) ^ 2)).sum,
   (ps.map (fun p => (p.2 - ym) ^ 2)).sum)

/-- pandas `Series.corr`: `NaN` (here `none`) with fewer than two pairs or
a zero-variance column, else `Sxy / sqrt(Sxx * Syy)`. Floats are idealized
as reals. -/
noncomputable def pandasCorr (ps : List (ℚ × ℚ)) : Option ℝ :=
  if ps.length < 2 then none
  else
    let s := pearsonSums ps
    if s.2.1 = 0 ∨ s.2.2 = 0 then none
    else some ((s.1 : ℝ) / Real.sqrt ((s.2.1 : ℝ) * (s.2.2 : ℝ)))

/-- Python `round(x, 6)` idealized over the reals (the half-even versus
half-up difference is invisible at this abstraction). -/
noncomputable def pyRound6 (x : ℝ) : ℝ :=
  (round (x * 1000000) : ℤ) / 1000000

/-- Python truthiness of `_find_column`'s result, as tested by
`if not x_col or not y_col`: `None` and a resolved empty-string column
name are both falsy. -/
def colTruthy (c : Option String) : Bool :=
  match c with
  | some s => s ≠ ""
  | none => false

/-- `DataProcessor.calculate_correlation`: resolve both column names,
coerce to numeric, Pearson correlation rounded to 6 decimals; `0.0` on
empty data, a falsy resolution (`if not x_col or not y_col` — unresolved
or resolved to the empty-string column name), or a `NaN` correlation. -/
noncomputable def calculateCorrelation (data : List Record) (c1 c2 : String) : ℝ :=
  if data.isEmpty then 0
  else
    let cols := dfColumns data
    let xCol := findColumn cols c1
    let yCol := findColumn cols c2
    if !colTruthy xCol || !colTruthy yCol then 0
    else
      match xCol, yCol with
      | some xc, some yc =>
        match pandasCorr (corrPairs data xc yc) with
        | some c => pyRound6 c
        | none => 0
      | _, _ => 0

/-- `DataProcessor.prepare_chart_data`: the numeric pairs of the resolved
columns in row order (each Python dict `{x_col: x, y_col: y}` modelled as
the pair); `[]` on empty data or a falsy resolution
(`if not x_match or not y_match`). -/
def prepareChartData (data : List Record) (xcol ycol : String) : List (ℚ × ℚ) :=
  if data.isEmpty then []
  else
    let cols := dfColumns data
    let xMatch := findColumn cols xcol
    let yMatch := findColumn cols ycol
    if !colTruthy xMatch || !colTruthy yMatch then []
    else
      match xMatch, yMatch with
      | some xm, some ym => corrPairs data xm ym
      | _, _ => []

/-! ## JSON values and Python attribute/iteration semantics

`process_analysis_task` receives an arbitrary parsed-JSON value; attribute
access and iteration on it can raise, which the Task Router's `try` must
catch. -/

/-- A parsed JSON value (the fragment reaching the router). -/
inductive Json where
  | jStr (s : String)
  | jInt (n : ℤ)
  | jList (l : List Json)
  | jDict (d : List (String × Json))
  | jNull

/-- The Python type name of a JSON value, as it appears in error messages. -/
def pyTypeName : Json → String
  | .jStr _ => "str"
  | .jInt _ => "int"
  | .jList _ => "list"
  | .jDict _ => "dict"
  | .jNull => "NoneType"

/-- Lookup in a JSON dictionary. -/
def jsonLookup (d : List (String × Json)) (k : String) : Option Json :=
  match d with
  | [] => none
  | (k', v) :: rest => if k' = k then some v else jsonLookup rest k

/-- Python `obj.get(k, default)`: `AttributeError` on a non-dict. -/
def pyGet (j : Json) (k : String) (dfl : Json) : Except String Json :=
  match j with
  | .jDict d => .ok ((jsonLookup d k).getD dfl)
  | _ => .error ("'" ++ pyTypeName j ++ "' object has no attribute 'get'")

/-- Python `obj.lower()`: `AttributeError` on a non-string. -/
def pyLowerJ (j : Json) : Except String String :=
  match j with
  | .jStr s => .ok (strLower s)
  | _ => .error ("'" ++ pyTypeName j ++ "' object has no attribute 'lower'")

/-- Python `for x in obj`: lists iterate their elements, strings their
characters, dicts their keys; numbers and `None` raise `TypeError`. -/
def pyIter (j : Json) : Except String (List Json) :=
  match j with
  | .jList l => .ok l
  | .jStr s => .ok (s.toList.map (fun c => .jStr ⟨[c]⟩))
  | .jDict d => .ok (d.map (fun kv => .jStr kv.1))
  | _ => .error ("'" ++ pyTypeName j ++ "' object is not iterable")

/-- Python falsiness of a JSON value (`not obj`). -/
def pyFalsy (j : Json) : Bool :=
  match j with
  | .jStr s => s = ""
  | .jInt n => n = 0
  | .jList l => l.isEmpty
  | .jDict d => d.isEmpty
  | .jNull => true

/-- Error-propagating map over a list, as a Python `for` loop that may
raise at any element. -/
def mapExcept (f : α → Except String β) : List α → Except String (List β)
  | [] => .ok []
  | a :: as =>
    match f a with
    | .error e => .error e
    | .ok b =>
      match mapExcept f as with
      | .error e => .error e
      | .ok bs => .ok (b :: bs)

/-! ## Mock analysis processors (`data_processor.py`) and their answers -/

/-- One per-question result of the router/processors: a Python int, float
or string. -/
inductive PyResult where
  | rInt (n : ℤ)
  | rFloat (x : ℝ)
  | rStr (s : String)

/-- The hard-coded 1×1-pixel PNG data URI used for mock plot answers. -/
def pngPixel : String :=
  "data:image/png;base64,iVBORw0KGgoAAAANSUhEUgAAAAEAAAABCAYAAAAfFcSJAAAADUlEQVR42mNk+M9QDwADhgGAWjR9awAAAABJRU5ErkJggg=="

/-- The per-question dispatch of `process_database_task`. -/
def dbAnswer (s : String) : PyResult :=
  let ls := strLower s
  if strContains ls "count" then .rInt 42
  else if strContains ls "regression" then .rFloat 0.75
  else if strContains ls "plot" then .rStr pngPixel
  else .rStr "Database analysis result"

/-- The per-question dispatch of `process_generic_task`. -/
def genAnswer (s : String) : PyResult :=
  let ls := strLower s
  if strContains ls "how many" then .rInt 1
  else if strContains ls "which" || strContains ls "what" then .rStr "Sample answer"
  else if strContains ls "correlation" then .rFloat 0.5
  else if strContains ls "plot" || strContains ls "chart" then .rStr pngPixel
  else .rStr "Analysis result"

/-- A per-question dispatch lifted to a JSON question: each branch begins
with `question.lower()`, which raises on a non-string. -/
def answerJ (ans : String → PyResult) (q : Json) : Except String PyResult :=
  match q with
  | .jStr s => .ok (ans s)
  | _ => .error ("'" ++ pyTypeName q ++ "' object has no attribute 'lower'")

/-- The `try` body of `DataProcessor.process_database_task`. -/
def processDatabaseTaskE (taskData : Json) : Except String (List PyResult) := do
  let qs ← pyGet taskData "questions" (.jList [])
  let ql ← pyIter qs
  mapExcept (answerJ dbAnswer) ql

/-- `DataProcessor.process_database_task`: internal errors degrade to
`["Database processing error"]`. -/
def processDatabaseTask (taskData : Json) : List PyResult :=
  match processDatabaseTaskE taskData with
  | .ok rs => rs
  | .error _ => [.rStr "Database processing error"]

/-- The `try` body of `DataProcessor.process_generic_task`; an empty (or
otherwise falsy) question list short-circuits to a fixed message. -/
def processGenericTaskE (taskData : Json) : Except String (List PyResult) := do
  let qs ← pyGet taskData "questions" (.jList [])
  if pyFalsy qs then pure [.rStr "Generic analysis completed"]
  else do
    let ql ← pyIter qs
    mapExcept (answerJ genAnswer) ql

/-- `DataProcessor.process_generic_task`: internal errors degrade to
`["Generic processing error"]`. -/
def processGenericTask (taskData : Json) : List PyResult :=
  match processGenericTaskE taskData with
  | .ok rs => rs
  | .error _ => [.rStr "Generic processing error"]

/-! ## Scraper Orchestrator and Table Normalizer (`web_scraper.py`)

The HTML layer is abstracted to what the code inspects: each `wikitable`
is a list of rows of cells, a cell carrying its stripped text and whether
it is a `th` element. -/

/-- One HTML table cell: its `get_text(strip=True)` text and whether the
element is a `th`. -/
structure HtmlCell where
  text : String
  isTh : Bool

/-- One HTML table row (`tr`): its `th`/`td` cells in document order. -/
structure HtmlRow where
  cells : List HtmlCell

/-- One `wikitable`: its `tr` rows in document order. -/
structure HtmlTable where
  rows : List HtmlRow

/-- The cell texts of a row, as `row.find_all(['td', 'th'])` yields them. -/
def rowCellTexts (r : HtmlRow) : List String :=
  r.cells.map (fun c => c.text)

/-- The ordered rewrite table of `_normalize_header`. -/
def headerNormalizations : List (String × String) :=
  [("worldwide gross", "worldwide_gross"), ("box office", "worldwide_gross"),
   ("total gross", "worldwide_gross"), ("film title", "title"),
   ("movie", "title"), ("release year", "year"), ("year released", "year")]

/-- First rewrite rule whose key occurs in the header, if any. -/
def applyNormalizations : List (String × String) → String → Option String
  | [], _ => none
  | (k, v) :: rest, h =>
    if strContains h k then some v else applyNormalizations rest h

/-- `re.sub(r'\s+', '_', s)`: each maximal whitespace run becomes one
underscore (`inSpace` tracks whether the previous character was space). -/
def collapseSpacesAux : Bool → List Char → List Char
  | _, [] => []
  | inSpace, c :: cs =>
    if c.isWhitespace then
      if inSpace then collapseSpacesAux true cs
      else '_' :: collapseSpacesAux true cs
    else c :: collapseSpacesAux false cs

/-- `WebScraper._normalize_header`: lower-case and trim, apply the first
matching rewrite rule, else drop non-word/non-space characters and replace
whitespace runs with underscores. -/
def normalizeHeader (h : String) : String :=
  let hl := strStrip (strLower h)
  match applyNormalizations headerNormalizations hl with
  | some v => v
  | none =>
    ⟨collapseSpacesAux false
      (hl.toList.filter (fun c => isWordChar c || c.isWhitespace))⟩

/-- `WebScraper._parse_number`: first run of digits as an integer. -/
def parseNumber (text : String) : Option ℤ :=
  ((digitRuns text).head?).map (fun r => (digitsToNat r : ℤ))

/-- `WebScraper._parse_year`: first word-delimited 4-digit year. -/
def parseYear (text : String) : Option ℤ :=
  yearSearch text

/-- A parsed optional integer as a cell value (`None` for a failed parse). -/
def optCell : Option ℤ → CellValue
  | some n => .vInt n
  | none => .vNone

/-- One step of the cell-routing loop of `_parse_films_table`: store the
cell under a canonical key determined by its positional header. -/
def filmCellStep (fd : Record) (hc : String × String) : Record :=
  if hc.1 = "rank" then dictInsert fd "rank" (optCell (parseNumber hc.2))
  else if hc.1 = "title" ∨ hc.1 = "film" then
    dictInsert fd "title" (.vStr (cleanFilmTitle hc.2))
  else if strContains hc.1 "gross" || strContains hc.1 "revenue" then
    dictInsert fd "worldwide_gross" (.vStr hc.2)
  else if hc.1 = "year" then dictInsert fd "year" (optCell (parseYear hc.2))
  else if hc.1 = "peak" then dictInsert fd "peak" (optCell (parseNumber hc.2))
  else dictInsert fd hc.1 (.vStr hc.2)

/-- The cell-routing loop of `_parse_films_table` (cells beyond the
headers are ignored, matching `if i < len(headers)`). -/
def buildFilmData (headers cells : List String) : Record :=
  (headers.zip cells).foldl filmCellStep []

/-- The acceptance test `if 'title' in film_data and film_data['title']`. -/
def rowTitleTruthy (fd : Record) : Bool :=
  match dictLookup fd "title" with
  | some v => cellTruthy v
  | none => false

/-- The data-row loop of `_parse_films_table`: skip rows with fewer than
3 cells, build the record, keep it only when its title is truthy. -/
def parseRowsLoop (headers : List String) : List HtmlRow → List Record
  | [] => []
  | r :: rs =>
    let cells := rowCellTexts r
    if 3 ≤ cells.length then
      let fd := buildFilmData headers cells
      if rowTitleTruthy fd then fd :: parseRowsLoop headers rs
      else parseRowsLoop headers rs
    else parseRowsLoop headers rs

/-- `WebScraper._parse_films_table`: headers from the first row, records
from the remaining rows (none when the table has no rows; nothing in the
loop can raise, so the surrounding `try` is inert). -/
def parseFilmsTable (t : HtmlTable) : List Record :=
  match t.rows with
  | [] => []
  | headerRow :: rest =>
    parseRowsLoop ((rowCellTexts headerRow).map normalizeHeader) rest

/-- Python `' '.join(l)`. -/
def joinSpace : List String → String
  | [] => ""
  | [s] => s
  | s :: rest => s ++ " " ++ joinSpace rest

/-- The lower-cased texts of all `th` cells of a table, in order. -/
def tableThTexts (t : HtmlTable) : List String :=
  t.rows.flatMap (fun r => (r.cells.filter (fun c => c.isTh)).map
    (fun c => strLower c.text))

/-- The candidate test of `_scrape_films_sync`: the joined header text
contains one of the film-table keywords. -/
def isCandidateTable (t : HtmlTable) : Bool :=
  ["rank", "film", "worldwide", "gross"].any
    (fun kw => strContains (joinSpace (tableThTexts t)) kw)

/-- The concatenated normalizer output over all candidate tables, in
document order. -/
def scrapedFilms (tables : List HtmlTable) : List Record :=
  (tables.filter isCandidateTable).flatMap parseFilmsTable

/-- `WebScraper._get_sample_films_data`: the fixed 10-record fallback. -/
def sampleFilmsData : List Record :=
  [[("rank", .vInt 1), ("title", .vStr "Avatar"),
    ("worldwide_gross", .vStr "$2.923 billion"), ("year", .vInt 2009),
    ("peak", .vInt 1)],
   [("rank", .vInt 2), ("title", .vStr "Avengers: Endgame"),
    ("worldwide_gross", .vStr "$2.798 billion"), ("year", .vInt 2019),
    ("peak", .vInt 1)],
   [("rank", .vInt 3), ("title", .vStr "Avatar: The Way of Water"),
    ("worldwide_gross", .vStr "$2.320 billion"), ("year", .vInt 2022),
    ("peak", .vInt 3)],
   [("rank", .vInt 4), ("title", .vStr "Titanic"),
    ("worldwide_gross", .vStr "$2.257 billion"), ("year", .vInt 1997),
    ("peak", .vInt 1)],
   [("rank", .vInt 5), ("title", .vStr "Star Wars: The Force Awakens"),
    ("worldwide_gross", .vStr "$2.071 billion"), ("year", .vInt 2015),
    ("peak", .vInt 5)],
   [("rank", .vInt 6), ("title", .vStr "Avengers: Infinity War"),
    ("worldwide_gross", .vStr "$2.048 billion"), ("year", .vInt 2018),
    ("peak", .vInt 6)],
   [("rank", .vInt 7), ("title", .vStr "Spider-Man: No Way Home"),
    ("worldwide_gross", .vStr "$1.921 billion"), ("year", .vInt 2021),
    ("peak", .vInt 7)],
   [("rank", .vInt 8), ("title", .vStr "Jurassic World"),
    ("worldwide_gross", .vStr "$1.672 billion"), ("year", .vInt 2015),
    ("peak", .vInt 8)],
   [("rank", .vInt 9), ("title", .vStr "The Lion King"),
    ("worldwide_gross", .vStr "$1.657 billion"), ("year", .vInt 2019),
    ("peak", .vInt 9)],
   [("rank", .vInt 10), ("title", .vStr "The Avengers"),
    ("worldwide_gross", .vStr "$1.519 billion"), ("year", .vInt 2012),
    ("peak", .vInt 10)]]

/-- `WebScraper._scrape_films_sync`, abstracted over the outcome of the
fetch-and-parse step: any transport/parse failure (`.error`) and an empty
concatenated result both degrade to the fallback data; a non-empty result
is truncated to 50 records. -/
def scrapeFilmsSync (fetched : Except String (List HtmlTable)) : List Record :=
  match fetched with
  | .error _ => sampleFilmsData
  | .ok tables =>
    let filmsData := scrapedFilms tables
    if filmsData.isEmpty then sampleFilmsData else filmsData.take 50

/-- The default URL of `scrape_wikipedia_films`. -/
def defaultFilmsUrl : String :=
  "https://en.wikipedia.org/wiki/List_of_highest-grossing_films"

/-- `if not url:` — `None` and the empty string both select the default. -/
def resolveUrl (url : Option String) : String :=
  match url with
  | some s => if s = "" then defaultFilmsUrl else s
  | none => defaultFilmsUrl

/-- `WebScraper.scrape_wikipedia_films`: fetch the resolved URL and run
the sync scraper; the outer `try` only guards the executor plumbing, as
`_scrape_films_sync` itself already degrades every failure to the
fallback data. `fetchPage` is the network environment: the tables parsed
from the response, or the exception the fetch raised. -/
def scrapeWikipediaFilms (fetchPage : String → Except String (List HtmlTable))
    (url : Option String) : List Record :=
  scrapeFilmsSync (fetchPage (resolveUrl url))

/-! ## Task Router (`api/index.py`, `process_analysis_task`) -/

/-- The films-domain per-question dispatch of `process_analysis_task`
(lines 126–151): case-insensitive keywords are tested on
`question.lower()`, but the literals `"$2"`, `"before 2000"` and
`"$1.5"` are tested on the original question text. `chart` is the
external Chart Renderer collaborator. -/
noncomputable def filmsAnswer (chart : List (ℚ × ℚ) → String)
    (records : List Record) (s : String) : PyResult :=
  let lq := strLower s
  if strContains lq "how many" && strContains s "$2" && strContains s "before 2000" then
    .rInt (countFilmsBeforeYear records 2000 2 : ℕ)
  else if strContains lq "earliest film" && strContains s "$1.5" then
    .rStr (findEarliestFilmOverAmount records 1.5)
  else if strContains lq "correlation" then
    .rFloat (calculateCorrelation records "Rank" "Peak")
  else if strContains lq "scatterplot" || strContains lq "plot" then
    .rStr (chart (prepareChartData records "Rank" "Peak"))
  else .rStr "Question not recognized"

/-- The films dispatch on a JSON question; `question.lower()` raises on a
non-string. -/
noncomputable def filmsAnswerJ (chart : List (ℚ × ℚ) → String)
    (records : List Record) : Json → Except String PyResult :=
  answerJ (filmsAnswer chart records)

/-- The `try` body of `process_analysis_task`: read `task` and
`questions`, classify the domain from the task text, produce one result
per question (films) or delegate (database/generic), then substitute
`["No results generated"]` for an empty result list. -/
noncomputable def processAnalysisTaskE
    (fetchPage : String → Except String (List HtmlTable))
    (chart : List (ℚ × ℚ) → String) (taskData : Json) :
    Except String (List PyResult) := do
  let td ← pyGet taskData "task" (.jStr "")
  let qs ← pyGet taskData "questions" (.jList [])
  let tds ← pyLowerJ td
  let results ←
    if strContains tds "wikipedia" && strContains tds "film" then do
      let records := scrapeWikipediaFilms fetchPage none
      let ql ← pyIter qs
      mapExcept (filmsAnswerJ chart records) ql
    else if strContains tds "database" then
      pure (processDatabaseTask taskData)
    else
      pure (processGenericTask taskData)
  pure (if results.isEmpty then [.rStr "No results generated"] else results)

/-- `process_analysis_task`: the `try` body with its top-level `except`,
which converts any uncaught exception into the single-element result
`["Error processing task: <message>"]`. -/
noncomputable def processAnalysisTask
    (fetchPage : String → Except String (List HtmlTable))
    (chart : List (ℚ × ℚ) → String) (taskData : Json) : List PyResult :=
  match processAnalysisTaskE fetchPage chart taskData with
  | .ok rs => rs
  | .error e => [.rStr ("Error processing task: " ++ e)]

/-- A well-typed task input `{task: ..., questions: [...]}`, as the data
model describes it. -/
def mkTaskInput (t : String) (qs : List String) : Json :=
  .jDict [("task", .jStr t), ("questions", .jList (qs.map .jStr))]

/-! ## Definitions taken from the specification's words (for comparison)

These are *not* translations of the source; they formalize what the
spec/claims literally say, so that agreement or disagreement with the
source-derived definitions can be stated. -/

/-- The claim C2 counting rule as the spec words it: year present and
before the bound, revenue present and at least the bound (no truthiness
proviso). -/
def countSpecClaim (data : List Record) (year : ℤ) (minGross : ℚ) : ℕ :=
  (data.filter (fun r =>
    let vals := dfRow (dfColumns data) r
    (match extractYearFromRow vals with
     | some y => decide (y < year)
     | none => false)
    && (match extractRevenueBillions vals with
        | some q => decide (q ≥ minGross)
        | none => false))).length

/-- Rows on which both extracted fields are present at all. -/
def bothFieldsPresent (data : List Record) : List Record :=
  data.filter (fun r =>
    let vals := dfRow (dfColumns data) r
    (extractYearFromRow vals).isSome && (extractRevenueBillions vals).isSome)

/-- The counting rule the code actually applies (claim C2 amended): both
fields present *and truthy* — a revenue of exactly `0.0` is falsy in
Python and disqualifies the record. -/
def countCondTruthy (cols : List String) (year : ℤ) (minGross : ℚ)
    (r : Record) : Bool :=
  let vals := dfRow cols r
  match extractYearFromRow vals, extractRevenueBillions vals with
  | some fy, some rev => decide (fy ≠ 0 ∧ rev ≠ 0 ∧ fy < year ∧ rev ≥ minGross)
  | _, _ => false

/-- Revenue candidacy of one value: non-`NaN` and the stripped text
contains a revenue keyword (case-insensitive). -/
def revenueCandidate (v : CellValue) : Bool :=
  !cellIsNa v
    && revenueKeywords.any (fun kw => strContains (strLower (revenueValueStr v)) kw)

/-- The revenue a single cell value yields: the scaled first digit run of
a candidate, `none` for non-candidates and unparseable candidates. -/
def revenueOfValue (v : CellValue) : Option ℚ :=
  if revenueCandidate v then
    match (numberRuns (revenueValueStr v)).head? with
    | some run => (pyFloatOfRun run).map (revenueScale (revenueValueStr v))
    | none => none
  else none

/-- The claim C6 extraction rule as worded: commit to the *first*
candidate value; if its parse fails the whole extraction is absent. -/
def extractRevenueClaim (vals : List CellValue) : Option ℚ :=
  match vals.find? revenueCandidate with
  | some v => revenueOfValue v
  | none => none

/-- The Pearson correlation coefficient as the spec words it:
covariance over the product of standard deviations (population
convention; any consistent convention gives the same ratio). -/
noncomputable def pearsonCoeff (ps : List (ℚ × ℚ)) : ℝ :=
  let n : ℝ := (ps.length : ℝ)
  let s := pearsonSums ps
  ((s.1 : ℝ) / n) / (Real.sqrt ((s.2.1 : ℝ) / n) * Real.sqrt ((s.2.2 : ℝ) / n))

/-! ## Evaluation helpers (numeric values of digit characters) -/

theorem toNatChar0 : '0'.toNat = 48 := rfl

theorem toNatChar1 : '1'.toNat = 49 := rfl

theorem toNatChar2 : '2'.toNat = 50 := rfl

theorem toNatChar3 : '3'.toNat = 51 := rfl

theorem toNatChar4 : '4'.toNat = 52 := rfl

theorem toNatChar5 : '5'.toNat = 53 := rfl

theorem toNatChar6 : '6'.toNat = 54 := rfl

theorem toNatChar7 : '7'.toNat = 55 := rfl

theorem toNatChar8 : '8'.toNat = 56 := rfl

theorem toNatChar9 : '9'.toNat = 57 := rfl

/-! ## Structural helper lemmas -/

theorem mapExcept_answerJ_map (f : String → PyResult) (qs : List String) :
    mapExcept (answerJ f) (qs.map Json.jStr) = Except.ok (qs.map f) := by
  induction qs with
  | nil => rfl
  | cons q qs ih => simp [mapExcept, answerJ, ih]

theorem dictLookup_dictInsert (r : Record) (k k' : String) (v : CellValue) :
    dictLookup (dictInsert r k v) k'
      = if k = k' then some v else dictLookup r k' := by
  induction r with
  | nil =>
    by_cases h : k = k' <;> simp [dictInsert, dictLookup, h]
  | cons hd tl ih =>
    obtain ⟨k0, v0⟩ := hd
    by_cases h0 : k0 = k
    · subst h0
      by_cases h1 : k0 = k' <;> simp [dictInsert, dictLookup, h1]
    · by_cases h1 : k0 = k'
      · subst h1
        have hk : k ≠ k0 := fun h => h0 h.symm
        simp [dictInsert, dictLookup, h0, hk]
      · simp [dictInsert, dictLookup, h0, h1, ih]

theorem length_filter_mono {α : Type} (p q : α → Bool) (l : List α)
    (h : ∀ a, p a = true → q a = true) :
    (l.filter p).length ≤ (l.filter q).length := by
  induction l with
  | nil => simp
  | cons a l ih =>
    by_cases hp : p a = true
    · simp [List.filter_cons, hp, h a hp, ih]
    · rcases hq : q a with _ | _
      · simpa [List.filter_cons, hp, hq] using ih
      · simp only [List.filter_cons, hp, hq, if_neg, Bool.false_eq_true,
          not_false_iff, List.length_cons]
        exact le_trans ih (Nat.le_succ _)

theorem countRowLoop_eq_filter (cols : List String) (year : ℤ) (minGross : ℚ)
    (data : List Record) :
    countRowLoop cols year minGross data
      = (data.filter (countCondTruthy cols year minGross)).length := by
  induction data with
  | nil => rfl
  | cons r rs ih =>
    rcases hy : extractYearFromRow (dfRow cols r) with _ | fy <;>
      rcases hr : extractRevenueBillions (dfRow cols r) with _ | rev <;>
      simp only [countRowLoop, countCondTruthy, hy, hr, ih, List.filter_cons]
    · simp
    · simp
    · simp
    · by_cases hc : (fy ≠ 0 ∧ rev ≠ 0 ∧ fy < year ∧ rev ≥ minGross) <;>
        simp [hc]

theorem extractRevenueBillions_eq_findSome (vals : List CellValue) :
    extractRevenueBillions vals = vals.findSome? revenueOfValue := by
  induction vals with
  | nil => rfl
  | cons v rest ih =>
    by_cases hna : cellIsNa v = true
    · have hcand : revenueCandidate v = false := by
        simp [revenueCandidate, hna]
      simp [extractRevenueBillions, hna, List.findSome?_cons, revenueOfValue,
        hcand, ih]
    · by_cases hkw : (revenueKeywords.any
          (fun kw => strContains (strLower (revenueValueStr v)) kw)) = true
      · have hcand : revenueCandidate v = true := by
          simp [revenueCandidate, hna, hkw]
        rcases hrun : (numberRuns (revenueValueStr v)).head? with _ | run
        · simp [extractRevenueBillions, hna, hkw, hrun, List.findSome?_cons,
            revenueOfValue, hcand, ih]
        · rcases hpf : pyFloatOfRun run with _ | num <;>
            simp [extractRevenueBillions, hna, hkw, hrun, hpf,
              List.findSome?_cons, revenueOfValue, hcand, ih]
      · have hcand : revenueCandidate v = false := by
          simp [revenueCandidate, hkw]
        simp [extractRevenueBillions, hna, hkw, List.findSome?_cons,
          revenueOfValue, hcand, ih]

theorem filmCellStep_title (fd : Record) (hc : String × String) :
    dictLookup (filmCellStep fd hc) "title" = dictLookup fd "title"
      ∨ ∃ c, dictLookup (filmCellStep fd hc) "title"
          = some (.vStr (cleanFilmTitle c)) := by
  obtain ⟨h, c⟩ := hc
  by_cases h1 : h = "rank"
  · left; simp [filmCellStep, h1, dictLookup_dictInsert]
  · by_cases h2 : h = "title" ∨ h = "film"
    · right
      exact ⟨c, by simp [filmCellStep, h1, h2, dictLookup_dictInsert]⟩
    · by_cases h3 : (strContains h "gross" || strContains h "revenue") = true
      · left; simp [filmCellStep, h1, h2, h3, dictLookup_dictInsert]
      · by_cases h4 : h = "year"
        · left
          simp +decide [filmCellStep, h1, h2, h3, h4, dictLookup_dictInsert]
        · by_cases h5 : h = "peak"
          · left
            simp +decide [filmCellStep, h1, h2, h3, h4, h5, dictLookup_dictInsert]
          · left
            have hnt : ¬h = "title" := fun he => h2 (Or.inl he)
            have hnf : ¬h = "film" := fun he => h2 (Or.inr he)
            simp [filmCellStep, h1, hnt, hnf, h3, h4, h5, dictLookup_dictInsert]

theorem foldl_filmCellStep_title (l : List (String × String)) (fd : Record)
    (h : dictLookup fd "title" = none
      ∨ ∃ c, dictLookup fd "title" = some (.vStr (cleanFilmTitle c))) :
    dictLookup (l.foldl filmCellStep fd) "title" = none
      ∨ ∃ c, dictLookup (l.foldl filmCellStep fd) "title"
          = some (.vStr (cleanFilmTitle c)) := by
  induction l generalizing fd with
  | nil => simpa using h
  | cons hc rest ih =>
    refine ih (filmCellStep fd hc) ?_
    rcases filmCellStep_title fd hc with heq | ⟨c, heq⟩
    · rw [heq]; exact h
    · exact Or.inr ⟨c, heq⟩

theorem buildFilmData_title (headers cells : List String) :
    dictLookup (buildFilmData headers cells) "title" = none
      ∨ ∃ c, dictLookup (buildFilmData headers cells) "title"
          = some (.vStr (cleanFilmTitle c)) := by
  exact foldl_filmCellStep_title _ [] (Or.inl rfl)

theorem mem_parseRowsLoop {headers : List String} {rows : List HtmlRow}
    {rec : Record} :
    rec ∈ parseRowsLoop headers rows ↔
      ∃ row ∈ rows, 3 ≤ (rowCellTexts row).length
        ∧ rowTitleTruthy (buildFilmData headers (rowCellTexts row)) = true
        ∧ rec = buildFilmData headers (rowCellTexts row) := by
  induction rows with
  | nil => simp [parseRowsLoop]
  | cons r rs ih =>
    by_cases h3 : 3 ≤ (rowCellTexts r).length
    · by_cases ht : rowTitleTruthy (buildFilmData headers (rowCellTexts r)) = true
      · show rec ∈ (if 3 ≤ (rowCellTexts r).length then
            (if rowTitleTruthy (buildFilmData headers (rowCellTexts r)) then
              buildFilmData headers (rowCellTexts r) :: parseRowsLoop headers rs
            else parseRowsLoop headers rs)
          else parseRowsLoop headers rs) ↔ _
        rw [if_pos h3, if_pos ht, List.mem_cons]
        constructor
        · rintro (rfl | hmem)
          · exact ⟨r, List.mem_cons_self r rs, h3, ht, rfl⟩
          · obtain ⟨row, hrow, hlen, htr, hrec⟩ := ih.mp hmem
            exact ⟨row, List.mem_cons_of_mem _ hrow, hlen, htr, hrec⟩
        · rintro ⟨row, hrow, hlen, htr, hrec⟩
          rcases List.mem_cons.mp hrow with rfl | hrow'
          · exact Or.inl hrec
          · exact Or.inr (ih.mpr ⟨row, hrow', hlen, htr, hrec⟩)
      · show rec ∈ (if 3 ≤ (rowCellTexts r).length then
            (if rowTitleTruthy (buildFilmData headers (rowCellTexts r)) then
              buildFilmData headers (rowCellTexts r) :: parseRowsLoop headers rs
            else parseRowsLoop headers rs)
          else parseRowsLoop headers rs) ↔ _
        rw [if_pos h3, if_neg ht]
        rw [ih]
        constructor
        · rintro ⟨row, hrow, hlen, htr, hrec⟩
          exact ⟨row, List.mem_cons_of_mem _ hrow, hlen, htr, hrec⟩
        · rintro ⟨row, hrow, hlen, htr, hrec⟩
          rcases List.mem_cons.mp hrow with rfl | hrow'
          · exact absurd htr ht
          · exact ⟨row, hrow', hlen, htr, hrec⟩
    · show rec ∈ (if 3 ≤ (rowCellTexts r).length then
          (if rowTitleTruthy (buildFilmData headers (rowCellTexts r)) then
            buildFilmData headers (rowCellTexts r) :: parseRowsLoop headers rs
          else parseRowsLoop headers rs)
        else parseRowsLoop headers rs) ↔ _
      rw [if_neg h3]
      rw [ih]
      constructor
      · rintro ⟨row, hrow, hlen, htr, hrec⟩
        exact ⟨row, List.mem_cons_of_mem _ hrow, hlen, htr, hrec⟩
      · rintro ⟨row, hrow, hlen, htr, hrec⟩
        rcases List.mem_cons.mp hrow with rfl | hrow'
        · exact absurd hlen h3
        · exact ⟨row, hrow', hlen, htr, hrec⟩

/-! ## Claims about the Table Normalizer and Field Extractor -/

/-- C8: every Record emitted by the Table Normalizer has a present,
non-empty `title` field, and this is the sole acceptance filter: a record
is emitted exactly for the data rows (all rows after the first) with at
least 3 cells whose built record has a truthy title — rows whose
rank/year/peak cells fail numeric parsing are still emitted, with those
fields `None` (see `filmCellStep`/`optCell`). -/
theorem claim_C8_normalizer_title_invariant (t : HtmlTable) :
    (∀ rec ∈ parseFilmsTable t,
      ∃ s, dictLookup rec "title" = some (.vStr s) ∧ s ≠ "")
    ∧ (∀ rec : Record, rec ∈ parseFilmsTable t ↔
        ∃ headerRow rest, t.rows = headerRow :: rest
          ∧ ∃ row ∈ rest, 3 ≤ (rowCellTexts row).length
            ∧ rowTitleTruthy (buildFilmData
                ((rowCellTexts headerRow).map normalizeHeader)
                (rowCellTexts row)) = true
            ∧ rec = buildFilmData ((rowCellTexts headerRow).map normalizeHeader)
                (rowCellTexts row)) := by
  constructor
  · intro rec hrec
    rcases htr : t.rows with _ | ⟨hr, rest⟩
    · simp [parseFilmsTable, htr] at hrec
    · rw [parseFilmsTable, htr] at hrec
      obtain ⟨row, _, _, htruthy, hrec_eq⟩ := mem_parseRowsLoop.mp hrec
      subst hrec_eq
      rcases buildFilmData_title ((rowCellTexts hr).map normalizeHeader)
          (rowCellTexts row) with hnone | ⟨c, hsome⟩
      · rw [rowTitleTruthy, hnone] at htruthy
        exact absurd htruthy (by simp)
      · refine ⟨cleanFilmTitle c, hsome, ?_⟩
        rw [rowTitleTruthy, hsome] at htruthy
        simpa [cellTruthy] using htruthy
  · intro rec
    rcases htr : t.rows with _ | ⟨hr, rest⟩
    · simp [parseFilmsTable, htr]
    · rw [parseFilmsTable, htr]
      rw [mem_parseRowsLoop]
      constructor
      · rintro ⟨row, hrow, hlen, htruthy, hrec⟩
        exact ⟨hr, rest, rfl, row, hrow, hlen, htruthy, hrec⟩
      · rintro ⟨hr', rest', heq, row, hrow, hlen, htruthy, hrec⟩
        obtain ⟨rfl, rfl⟩ : hr = hr' ∧ rest = rest' := by
          constructor <;> [exact (List.cons.injEq .. ▸ heq).1;
            exact (List.cons.injEq .. ▸ heq).2]
        exact ⟨row, hrow, hlen, htruthy, hrec⟩

/-- Witness for C8 on a concrete table: a row whose rank/year/peak cells
fail numeric parsing is still emitted and has a non-empty title. -/
theorem claim_C8_witness :
    ∃ s, dictLookup [("rank", CellValue.vNone), ("title", .vStr "Titanic"),
        ("year", CellValue.vNone)] "title" = some (.vStr s) ∧ s ≠ "" :=
  (claim_C8_normalizer_title_invariant
      ⟨[⟨[⟨"Rank", true⟩, ⟨"Film title", true⟩, ⟨"Year", true⟩]⟩,
        ⟨[⟨"n/a", false⟩, ⟨"Titanic", false⟩, ⟨"unknown", false⟩]⟩]⟩).1
    [("rank", CellValue.vNone), ("title", .vStr "Titanic"),
      ("year", CellValue.vNone)]
    (by decide)

/-- C6 (amended): `_extract_revenue_billions` scans value by value and
returns the first value that is both a keyword candidate and yields a
parseable first digit run — a candidate with no parseable number is
skipped, not a final failure; on a single value, `"$2.923 billion"`
yields `2.923` and `"1,921"` (no keyword in the value itself) yields
nothing. -/
theorem claim_C6_revenue_scan :
    (∀ vals : List CellValue,
      extractRevenueBillions vals = vals.findSome? revenueOfValue)
    ∧ revenueOfValue (.vStr "$2.923 billion") = some (2.923 : ℚ)
    ∧ revenueOfValue (.vStr "1,921") = none := by
  refine ⟨extractRevenueBillions_eq_findSome, ?_, by decide⟩
  norm_num +decide [revenueOfValue, revenueCandidate, revenueValueStr,
    revenueScale, pyFloatOfRun, digitsToNat, numberRuns, runsOf, runsOfAux,
    removeChar, pyStr, cellIsNa, revenueKeywords, isDigitDot,
    toNatChar0, toNatChar1, toNatChar2, toNatChar3, toNatChar4, toNatChar5,
    toNatChar6, toNatChar7, toNatChar8, toNatChar9]

/-- Counterexample to C6 as stated: on the row
`["worldwide gross", "3 billion"]` the first candidate value
(`"worldwide gross"`) has no parseable number; the claim says extraction
is then absent, but the code continues and extracts `3` from the second
value. -/
theorem claim_C6_counterexample :
    extractRevenueBillions [.vStr "worldwide gross", .vStr "3 billion"]
        = some (3 : ℚ)
    ∧ extractRevenueClaim [.vStr "worldwide gross", .vStr "3 billion"]
        = none := by
  constructor
  · norm_num +decide [extractRevenueBillions, revenueValueStr, revenueScale,
      pyFloatOfRun, digitsToNat, numberRuns, runsOf, runsOfAux,
      removeChar, pyStr, cellIsNa, revenueKeywords, isDigitDot,
      toNatChar0, toNatChar1, toNatChar2, toNatChar3, toNatChar4, toNatChar5,
      toNatChar6, toNatChar7, toNatChar8, toNatChar9]
  · decide

/-- C2 (amended): `count_films_before_year` counts exactly the records
whose extracted year and revenue are both present *and truthy* (Python's
`if film_year and revenue` — so an extracted revenue of exactly `0.0`
disqualifies a record even when `min_revenue ≤ 0`), with year before and
revenue at least the bounds; consequently the count never exceeds the
number of records with both fields present. -/
theorem claim_C2_count_characterization (data : List Record) (year : ℤ)
    (minGross : ℚ) :
    countFilmsBeforeYear data year minGross
      = (data.filter (countCondTruthy (dfColumns data) year minGross)).length
    ∧ countFilmsBeforeYear data year minGross ≤ (bothFieldsPresent data).length := by
  have h1 : countFilmsBeforeYear data year minGross
      = (data.filter (countCondTruthy (dfColumns data) year minGross)).length := by
    cases data with
    | nil => rfl
    | cons r rs =>
      rw [countFilmsBeforeYear, if_neg (by simp)]
      exact countRowLoop_eq_filter _ _ _ _
  refine ⟨h1, ?_⟩
  rw [h1, bothFieldsPresent]
  apply length_filter_mono
  intro r h
  rcases hy : extractYearFromRow (dfRow (dfColumns data) r) with _ | fy <;>
    rcases hr : extractRevenueBillions (dfRow (dfColumns data) r) with _ | rev <;>
    simp only [countCondTruthy, hy, hr] at h <;> simp_all

/-- Counterexample to C2 as stated: with minimum revenue `0`, a record
extracting year `1997` and revenue `0.0` (from `"0 billion"`) satisfies
the claim's counting rule (both present, `1997 < 2000`, `0 ≥ 0`) but is
not counted by the code, because `0.0` is falsy in Python. -/
theorem claim_C2_counterexample :
    countFilmsBeforeYear [[("title", CellValue.vStr "X"),
        ("gross", .vStr "0 billion"), ("year", .vInt 1997)]] 2000 0
      ≠ countSpecClaim [[("title", CellValue.vStr "X"),
        ("gross", .vStr "0 billion"), ("year", .vInt 1997)]] 2000 0 := by
  decide

/-! ## Claims about the Task Router -/

/-- C1 (amended): for a films-domain task with questions
`qs`, the router answers each question in order (`N` results for `N ≥ 1`
questions), but an empty question list produces the single-element
substitute `["No results generated"]`, not an empty sequence. -/
theorem claim_C1_router_films
    (fetchPage : String → Except String (List HtmlTable))
    (chart : List (ℚ × ℚ) → String) (t : String) (qs : List String)
    (hw : strContains (strLower t) "wikipedia" = true)
    (hf : strContains (strLower t) "film" = true) :
    processAnalysisTask fetchPage chart (mkTaskInput t qs)
      = if qs.isEmpty then [.rStr "No results generated"]
        else qs.map (filmsAnswer chart (scrapeWikipediaFilms fetchPage none)) := by
  have hbody : processAnalysisTaskE fetchPage chart (mkTaskInput t qs)
      = Except.ok (if (qs.map (filmsAnswer chart
            (scrapeWikipediaFilms fetchPage none))).isEmpty
          then [PyResult.rStr "No results generated"]
          else qs.map (filmsAnswer chart (scrapeWikipediaFilms fetchPage none))) := by
    rw [processAnalysisTaskE]
    simp +decide [mkTaskInput, pyGet, jsonLookup, pyLowerJ, pyIter, hw, hf,
      filmsAnswerJ, bind, Except.bind, pure, Except.pure, mapExcept_answerJ_map]
  rw [processAnalysisTask, hbody]
  cases qs <;> simp

/-- Counterexample to C1 as stated: a films task with `N = 0` questions
does not produce a 0-element result sequence; the empty sequence is
substituted by the single element `"No results generated"`. -/
theorem claim_C1_counterexample :
    processAnalysisTask (fun _ => .error "network down") (fun _ => "chart")
        (mkTaskInput "wikipedia film" []) = [.rStr "No results generated"]
    ∧ (processAnalysisTask (fun _ => .error "network down") (fun _ => "chart")
        (mkTaskInput "wikipedia film" [])).length ≠ 0 := by
  have h : processAnalysisTask (fun _ => .error "network down") (fun _ => "chart")
      (mkTaskInput "wikipedia film" []) = [.rStr "No results generated"] := by
    rw [processAnalysisTask, processAnalysisTaskE]
    simp +decide [mkTaskInput, pyGet, jsonLookup, pyLowerJ, pyIter,
      filmsAnswerJ, mapExcept, bind, Except.bind, pure, Except.pure]
  exact ⟨h, by rw [h]; simp⟩

/-- C9: any exception raised inside the `try` body of
`process_analysis_task` is caught at the router boundary and converted
into the single-element result `["Error processing task: <message>"]`;
the router itself (a total function here) never propagates it. -/
theorem claim_C9_catchall
    (fetchPage : String → Except String (List HtmlTable))
    (chart : List (ℚ × ℚ) → String) (input : Json) (e : String)
    (h : processAnalysisTaskE fetchPage chart input = .error e) :
    processAnalysisTask fetchPage chart input
      = [.rStr ("Error processing task: " ++ e)] := by
  rw [processAnalysisTask, h]

/-- Witness for C9: a non-dict task input makes `task_data.get` raise
`AttributeError`, and the router converts it. -/
theorem claim_C9_witness :
    processAnalysisTask (fun _ => .error "x") (fun _ => "img") (.jInt 7)
      = [.rStr ("Error processing task: 'int' object has no attribute 'get'")] :=
  claim_C9_catchall (fun _ => .error "x") (fun _ => "img") (.jInt 7)
    "'int' object has no attribute 'get'" rfl

/-- C4 (amended): the films-domain question dispatch tests its rules in
fixed priority order with no fallthrough, but only the keywords
`"how many"`, `"earliest film"`, `"correlation"`, `"scatterplot"`,
`"plot"` are matched against the lower-cased question; the literals
`"$2"`, `"before 2000"`, `"$1.5"` are matched against the original text,
so the count rule fires only when the question contains `"before 2000"`
in lower case (as in the final conjunct). -/
theorem claim_C4_films_dispatch (chart : List (ℚ × ℚ) → String)
    (records : List Record) (s : String) :
    ((strContains (strLower s) "how many" && strContains s "$2"
        && strContains s "before 2000") = true →
      filmsAnswer chart records s
        = .rInt (countFilmsBeforeYear records 2000 2 : ℕ))
    ∧ ((strContains (strLower s) "how many" && strContains s "$2"
        && strContains s "before 2000") = false →
      (strContains (strLower s) "earliest film" && strContains s "$1.5") = true →
      filmsAnswer chart records s
        = .rStr (findEarliestFilmOverAmount records 1.5))
    ∧ ((strContains (strLower s) "how many" && strContains s "$2"
        && strContains s "before 2000") = false →
      (strContains (strLower s) "earliest film" && strContains s "$1.5") = false →
      strContains (strLower s) "correlation" = true →
      filmsAnswer chart records s
        = .rFloat (calculateCorrelation records "Rank" "Peak"))
    ∧ ((strContains (strLower s) "how many" && strContains s "$2"
        && strContains s "before 2000") = false →
      (strContains (strLower s) "earliest film" && strContains s "$1.5") = false →
      strContains (strLower s) "correlation" = false →
      (strContains (strLower s) "scatterplot" || strContains (strLower s) "plot") = true →
      filmsAnswer chart records s
        = .rStr (chart (prepareChartData records "Rank" "Peak")))
    ∧ ((strContains (strLower s) "how many" && strContains s "$2"
        && strContains s "before 2000") = false →
      (strContains (strLower s) "earliest film" && strContains s "$1.5") = false →
      strContains (strLower s) "correlation" = false →
      (strContains (strLower s) "scatterplot" || strContains (strLower s) "plot") = false →
      filmsAnswer chart records s = .rStr "Question not recognized")
    ∧ filmsAnswer chart records "how many films grossed $2 bn before 2000?"
        = .rInt (countFilmsBeforeYear records 2000 2 : ℕ) := by
  refine ⟨?_, ?_, ?_, ?_, ?_, ?_⟩
  · intro h1
    simp [filmsAnswer, h1]
  · intro h1 h2
    simp [filmsAnswer, h1, h2]
  · intro h1 h2 h3
    simp [filmsAnswer, h1, h2, h3]
  · intro h1 h2 h3 h4
    simp [filmsAnswer, h1, h2, h3, h4]
  · intro h1 h2 h3 h4
    simp [filmsAnswer, h1, h2, h3, h4]
  · simp +decide [filmsAnswer]

/-- Counterexample to C4 as stated: the same count question in capital
letters is *not* recognized, because `"before 2000" in question` is a
case-sensitive test on the original text. -/
theorem claim_C4_counterexample :
    filmsAnswer (fun _ => "img") sampleFilmsData
        "HOW MANY FILMS GROSSED $2 BN BEFORE 2000?"
      = .rStr "Question not recognized"
    ∧ PyResult.rStr "Question not recognized"
        ≠ .rInt (countFilmsBeforeYear sampleFilmsData 2000 2 : ℕ) := by
  constructor
  · simp +decide [filmsAnswer]
  · exact fun h => PyResult.noConfusion h

/-- C10: the database and generic mock processors answer one question per
question in order from their fixed keyword tables; an empty question list
yields `["Generic analysis completed"]` from the generic processor and
`[]` from the database processor, which the router then substitutes with
`["No results generated"]`. -/
theorem claim_C10_mock_processors :
    (∀ (t : String) (qs : List String),
      processDatabaseTask (mkTaskInput t qs) = qs.map dbAnswer)
    ∧ (∀ (t : String) (qs : List String), qs ≠ [] →
      processGenericTask (mkTaskInput t qs) = qs.map genAnswer)
    ∧ (∀ t : String,
      processGenericTask (mkTaskInput t []) = [.rStr "Generic analysis completed"])
    ∧ (∀ t : String, processDatabaseTask (mkTaskInput t []) = [])
    ∧ (∀ (fetchPage : String → Except String (List HtmlTable))
        (chart : List (ℚ × ℚ) → String) (t : String),
        (strContains (strLower t) "wikipedia" && strContains (strLower t) "film") = false →
        strContains (strLower t) "database" = true →
        processAnalysisTask fetchPage chart (mkTaskInput t [])
          = [.rStr "No results generated"]) := by
  have hdb : ∀ (t : String) (qs : List String),
      processDatabaseTask (mkTaskInput t qs) = qs.map dbAnswer := by
    intro t qs
    rw [processDatabaseTask, processDatabaseTaskE]
    simp +decide [mkTaskInput, pyGet, jsonLookup, pyIter,
      mapExcept_answerJ_map, bind, Except.bind, pure, Except.pure]
  refine ⟨hdb, ?_, ?_, fun t => by simpa using hdb t [], ?_⟩
  · intro t qs hne
    rw [processGenericTask, processGenericTaskE]
    have hfalse : pyFalsy (Json.jList (qs.map Json.jStr)) = false := by
      rcases qs with _ | ⟨q, rest⟩
      · exact absurd rfl hne
      · simp [pyFalsy]
    simp +decide [mkTaskInput, pyGet, jsonLookup, pyIter, hfalse,
      mapExcept_answerJ_map, bind, Except.bind, pure, Except.pure]
  · intro t
    rw [processGenericTask, processGenericTaskE]
    simp +decide [mkTaskInput, pyGet, jsonLookup, pyFalsy,
      bind, Except.bind, pure, Except.pure]
  · intro fetchPage chart t hwf hdbk
    rw [processAnalysisTask, processAnalysisTaskE]
    have h0 : processDatabaseTask (mkTaskInput t []) = [] := by simpa using hdb t []
    simp +decide [mkTaskInput, pyGet, jsonLookup, pyLowerJ, hwf, hdbk,
      bind, Except.bind, pure, Except.pure] at h0 ⊢
    simp [h0]

/-- Witness for C1 at a concrete films task with one question. -/
theorem claim_C1_witness :
    processAnalysisTask (fun _ => .error "down") (fun _ => "img")
        (mkTaskInput "Analyze wikipedia film data" ["plot the data"])
      = if (["plot the data"] : List String).isEmpty
        then [PyResult.rStr "No results generated"]
        else ["plot the data"].map (filmsAnswer (fun _ => "img")
            (scrapeWikipediaFilms (fun _ => .error "down") none)) :=
  claim_C1_router_films (fun _ => .error "down") (fun _ => "img")
    "Analyze wikipedia film data" ["plot the data"] (by decide) (by decide)

/-- Witness for C4: the fully lower-case count question triggers the
count rule. -/
theorem claim_C4_witness :
    filmsAnswer (fun _ => "img") sampleFilmsData
        "how many films grossed $2 bn before 2000?"
      = .rInt (countFilmsBeforeYear sampleFilmsData 2000 2 : ℕ) :=
  (claim_C4_films_dispatch (fun _ => "img") sampleFilmsData
      "how many films grossed $2 bn before 2000?").1 (by decide)

/-- Witness for C10 at concrete database/generic tasks. -/
theorem claim_C10_witness :
    processDatabaseTask (mkTaskInput "a database task"
        ["count rows", "fit regression", "draw plot", "other"])
      = [.rInt 42, .rFloat 0.75, .rStr pngPixel, .rStr "Database analysis result"]
    ∧ processGenericTask (mkTaskInput "something else"
        ["how many", "which one", "other"])
      = [.rInt 1, .rStr "Sample answer", .rStr "Analysis result"]
    ∧ processAnalysisTask (fun _ => .error "x") (fun _ => "img")
        (mkTaskInput "a database task" []) = [.rStr "No results generated"] := by
  refine ⟨?_, ?_, ?_⟩
  · rw [claim_C10_mock_processors.1]
    simp +decide [dbAnswer]
  · rw [claim_C10_mock_processors.2.1 "something else" _ (by simp)]
    simp +decide [genAnswer]
  · exact claim_C10_mock_processors.2.2.2.2 (fun _ => .error "x") (fun _ => "img")
      "a database task" (by decide) (by decide)

/-! ## Claim about the Scraper Orchestrator -/

/-- C3: the Scraper Orchestrator is a total function of the fetch
outcome (it never raises); when the fetch step fails, or the concatenated
scrape result is empty, its output is exactly the fixed 10-record
fallback data; its output is never empty. -/
theorem claim_C3_scraper_fallback
    (fetchPage : String → Except String (List HtmlTable)) (url : Option String) :
    scrapeWikipediaFilms fetchPage url ≠ []
    ∧ (∀ e, fetchPage (resolveUrl url) = .error e →
        scrapeWikipediaFilms fetchPage url = sampleFilmsData)
    ∧ (∀ tables, fetchPage (resolveUrl url) = .ok tables →
        scrapedFilms tables = [] →
        scrapeWikipediaFilms fetchPage url = sampleFilmsData)
    ∧ sampleFilmsData.length = 10 := by
  refine ⟨?_, ?_, ?_, by decide⟩
  · rcases h : fetchPage (resolveUrl url) with e | tables
    · simp [scrapeWikipediaFilms, h, scrapeFilmsSync, sampleFilmsData]
    · rw [scrapeWikipediaFilms, h, scrapeFilmsSync]
      rcases hs : scrapedFilms tables with _ | ⟨r, rs⟩
      · simp [sampleFilmsData]
      · simp [List.take_eq_nil_iff]
  · intro e he
    simp [scrapeWikipediaFilms, he, scrapeFilmsSync]
  · intro tables ht hs
    simp [scrapeWikipediaFilms, ht, scrapeFilmsSync, hs]

/-- Witness for C3: a failing fetch yields exactly the fallback data. -/
theorem claim_C3_witness :
    scrapeWikipediaFilms (fun _ => .error "timed out") none = sampleFilmsData
    ∧ scrapeWikipediaFilms (fun _ => .error "timed out") none ≠ [] :=
  ⟨(claim_C3_scraper_fallback (fun _ => .error "timed out") none).2.1
      "timed out" rfl,
   (claim_C3_scraper_fallback (fun _ => .error "timed out") none).1⟩

/-! ## Claim about the Statistics Engine correlation -/

theorem pearsonSums_sxx_nonneg (ps : List (ℚ × ℚ)) :
    0 ≤ (pearsonSums ps).2.1 := by
  apply List.sum_nonneg
  intro x hx
  obtain ⟨p, _, rfl⟩ := List.mem_map.mp hx
  positivity

theorem pearsonSums_syy_nonneg (ps : List (ℚ × ℚ)) :
    0 ≤ (pearsonSums ps).2.2 := by
  apply List.sum_nonneg
  intro x hx
  obtain ⟨p, _, rfl⟩ := List.mem_map.mp hx
  positivity

/-- pandas' `Sxy / sqrt(Sxx * Syy)` agrees with the textbook Pearson
coefficient `cov / (σx * σy)` whenever the latter is defined. -/
theorem pearson_ratio_eq (ps : List (ℚ × ℚ)) (h2 : 2 ≤ ps.length)
    (hx : (pearsonSums ps).2.1 ≠ 0) (hy : (pearsonSums ps).2.2 ≠ 0) :
    ((pearsonSums ps).1 : ℝ)
        / Real.sqrt (((pearsonSums ps).2.1 : ℝ) * ((pearsonSums ps).2.2 : ℝ))
      = pearsonCoeff ps := by
  have hn : (0 : ℝ) < (ps.length : ℝ) := by
    have : 0 < ps.length := lt_of_lt_of_le (by norm_num) h2
    exact_mod_cast this
  have hsxx : (0 : ℝ) < ((pearsonSums ps).2.1 : ℝ) := by
    have h0 := pearsonSums_sxx_nonneg ps
    have : (0 : ℚ) < (pearsonSums ps).2.1 := lt_of_le_of_ne h0 (Ne.symm hx)
    exact_mod_cast this
  have hsyy : (0 : ℝ) < ((pearsonSums ps).2.2 : ℝ) := by
    have h0 := pearsonSums_syy_nonneg ps
    have : (0 : ℚ) < (pearsonSums ps).2.2 := lt_of_le_of_ne h0 (Ne.symm hy)
    exact_mod_cast this
  rw [pearsonCoeff]
  rw [Real.sqrt_div hsxx.le, Real.sqrt_div hsyy.le, div_mul_div_comm,
    Real.mul_self_sqrt hn.le]
  rw [div_div_div_cancel_right₀]
  · rw [Real.sqrt_mul hsxx.le]
  · exact ne_of_gt hn

/-- C7 (amended): `calculate_correlation` returns `0.0` when the data is
empty, when either column resolution is falsy — unresolved, or resolved
to the empty-string column name, which Python's
`if not x_col or not y_col` treats the same as unresolved — when fewer
than two numeric pairs exist, or when either column has zero variance;
with both columns resolved to non-empty names, at least two pairs and
nonzero variances, it returns the Pearson correlation coefficient of the
paired values rounded to 6 decimal places. Being a total function of its
inputs, it never raises. -/
theorem claim_C7_correlation (data : List Record) (c1 c2 : String) :
    (data.isEmpty = true → calculateCorrelation data c1 c2 = 0)
    ∧ ((findColumn (dfColumns data) c1 = none
          ∨ findColumn (dfColumns data) c2 = none
          ∨ findColumn (dfColumns data) c1 = some ""
          ∨ findColumn (dfColumns data) c2 = some "") →
        calculateCorrelation data c1 c2 = 0)
    ∧ (∀ xc yc, findColumn (dfColumns data) c1 = some xc →
        findColumn (dfColumns data) c2 = some yc → xc ≠ "" → yc ≠ "" →
        (((corrPairs data xc yc).length < 2 →
            calculateCorrelation data c1 c2 = 0)
          ∧ ((pearsonSums (corrPairs data xc yc)).2.1 = 0
                ∨ (pearsonSums (corrPairs data xc yc)).2.2 = 0 →
              calculateCorrelation data c1 c2 = 0)
          ∧ (2 ≤ (corrPairs data xc yc).length →
              (pearsonSums (corrPairs data xc yc)).2.1 ≠ 0 →
              (pearsonSums (corrPairs data xc yc)).2.2 ≠ 0 →
              calculateCorrelation data c1 c2
                = pyRound6 (pearsonCoeff (corrPairs data xc yc))))) := by
  by_cases hempty : data.isEmpty = true
  · refine ⟨fun _ => by rw [calculateCorrelation, if_pos hempty], ?_, ?_⟩
    · intro _; rw [calculateCorrelation, if_pos hempty]
    · intro xc yc hxc _
      have : data = [] := by cases data <;> simp_all
      subst this
      simp [findColumn, dfColumns] at hxc
  · refine ⟨fun h => absurd h hempty, ?_, ?_⟩
    · intro h
      rw [calculateCorrelation, if_neg hempty]
      rcases h with h | h | h | h <;> simp [h, colTruthy]
    · intro xc yc hxc hyc hxne hyne
      have hguard : ¬ ((!colTruthy (findColumn (dfColumns data) c1)
          || !colTruthy (findColumn (dfColumns data) c2)) = true) := by
        simp [hxc, hyc, colTruthy, hxne, hyne]
      refine ⟨?_, ?_, ?_⟩
      · intro hlen
        rw [calculateCorrelation, if_neg hempty]
        rw [if_neg hguard]
        simp only [hxc, hyc, pandasCorr, if_pos hlen]
      · intro hz
        rw [calculateCorrelation, if_neg hempty]
        rw [if_neg hguard]
        by_cases hlen : (corrPairs data xc yc).length < 2
        · simp only [hxc, hyc, pandasCorr, if_pos hlen]
        · simp only [hxc, hyc, pandasCorr, if_neg hlen, if_pos hz]
      · intro hlen hzx hzy
        rw [calculateCorrelation, if_neg hempty]
        rw [if_neg hguard]
        have hnlt : ¬ (corrPairs data xc yc).length < 2 := not_lt.mpr hlen
        have hnz : ¬ ((pearsonSums (corrPairs data xc yc)).2.1 = 0
            ∨ (pearsonSums (corrPairs data xc yc)).2.2 = 0) := by
          rintro (h | h)
          · exact hzx h
          · exact hzy h
        simp only [hxc, hyc, pandasCorr, if_neg hnlt, if_neg hnz]
        rw [pearson_ratio_eq _ hlen hzx hzy]

/-- Counterexample to C7 as stated: `_find_column`'s substring pass can
resolve a target to the empty-string column name (`"" in "rank"` holds in
Python), and `if not x_col or not y_col` then returns `0.0` even though
two valid numeric pairs with Pearson coefficient `1.0` exist — where the
claim's rule, whose only zero cases are failed resolution, fewer than two
pairs and an undefined coefficient, prescribes the rounded Pearson value
`1`. -/
theorem claim_C7_counterexample :
    findColumn (dfColumns [[("", CellValue.vInt 1), ("b", CellValue.vInt 2)],
        [("", CellValue.vInt 3), ("b", CellValue.vInt 5)]]) "Rank" = some ""
    ∧ findColumn (dfColumns [[("", CellValue.vInt 1), ("b", CellValue.vInt 2)],
        [("", CellValue.vInt 3), ("b", CellValue.vInt 5)]]) "Peak" = some ""
    ∧ pyRound6 (pearsonCoeff (corrPairs
        [[("", CellValue.vInt 1), ("b", CellValue.vInt 2)],
          [("", CellValue.vInt 3), ("b", CellValue.vInt 5)]] "" "")) = 1
    ∧ calculateCorrelation [[("", CellValue.vInt 1), ("b", CellValue.vInt 2)],
        [("", CellValue.vInt 3), ("b", CellValue.vInt 5)]] "Rank" "Peak" = 0
    ∧ (0 : ℝ) ≠ 1 := by
  refine ⟨by decide, by decide, ?_, ?_, by norm_num⟩
  · have hp : corrPairs [[("", CellValue.vInt 1), ("b", CellValue.vInt 2)],
        [("", CellValue.vInt 3), ("b", CellValue.vInt 5)]] "" ""
        = [((1 : ℚ), (1 : ℚ)), ((3 : ℚ), (3 : ℚ))] := by decide
    have hs : pearsonSums [((1 : ℚ), (1 : ℚ)), ((3 : ℚ), (3 : ℚ))]
        = (2, 2, 2) := by norm_num [pearsonSums, Prod.ext_iff]
    rw [hp, pearsonCoeff, hs]
    norm_num [Real.sqrt_one]
    rw [pyRound6]
    rw [show ((1000000 : ℝ)) = ((1000000 : ℤ) : ℝ) by norm_num]
    rw [show ((1 : ℝ) * ((1000000 : ℤ) : ℝ)) = ((1000000 : ℤ) : ℝ) by norm_num]
    rw [round_intCast]
    norm_num
  · simp +decide [calculateCorrelation, colTruthy]

/-- Witness for C7, exercising the resolved non-falsy Pearson branch on
two records with columns `rank`/`peak` (pairs `(1,2)` and `(3,5)`). -/
theorem claim_C7_witness :
    calculateCorrelation [[("rank", CellValue.vInt 1), ("peak", CellValue.vInt 2)],
        [("rank", CellValue.vInt 3), ("peak", CellValue.vInt 5)]] "Rank" "Peak"
      = pyRound6 (pearsonCoeff (corrPairs
          [[("rank", CellValue.vInt 1), ("peak", CellValue.vInt 2)],
            [("rank", CellValue.vInt 3), ("peak", CellValue.vInt 5)]]
          "rank" "peak")) := by
  have hp : corrPairs [[("rank", CellValue.vInt 1), ("peak", CellValue.vInt 2)],
        [("rank", CellValue.vInt 3), ("peak", CellValue.vInt 5)]] "rank" "peak"
      = [((1 : ℚ), (2 : ℚ)), ((3 : ℚ), (5 : ℚ))] := by decide
  have hsxx : (pearsonSums (corrPairs
      [[("rank", CellValue.vInt 1), ("peak", CellValue.vInt 2)],
        [("rank", CellValue.vInt 3), ("peak", CellValue.vInt 5)]]
      "rank" "peak")).2.1 ≠ 0 := by
    rw [hp]; norm_num [pearsonSums]
  have hsyy : (pearsonSums (corrPairs
      [[("rank", CellValue.vInt 1), ("peak", CellValue.vInt 2)],
        [("rank", CellValue.vInt 3), ("peak", CellValue.vInt 5)]]
      "rank" "peak")).2.2 ≠ 0 := by
    rw [hp]; norm_num [pearsonSums]
  exact ((claim_C7_correlation
      [[("rank", CellValue.vInt 1), ("peak", CellValue.vInt 2)],
        [("rank", CellValue.vInt 3), ("peak", CellValue.vInt 5)]]
      "Rank" "Peak").2.2 "rank" "peak" (by decide) (by decide)
      (by decide) (by decide)).2.2 (by decide) hsxx hsyy

/-! ## Claim C5: earliest film over 1.5 billion on the fallback data -/

/-- The one-step unfolding of `earliestRowLoop` on a non-empty list. -/
theorem earliestRowLoop_cons (cols : List String) (minGross : ℚ)
    (r : Record) (rs : List Record) (bestYear : Option ℤ) (bestTitle : String) :
    earliestRowLoop cols minGross (r :: rs) bestYear bestTitle
      = (let vals := dfRow cols r
         match extractYearFromRow vals, extractRevenueBillions vals with
         | some fy, some rev =>
           if fy ≠ 0 ∧ rev ≠ 0 ∧ rev ≥ minGross then
             if (match bestYear with | none => true | some b => fy < b) then
               earliestRowLoop cols minGross rs (some fy)
                 (extractTitleFromRow cols vals)
             else earliestRowLoop cols minGross rs bestYear bestTitle
           else earliestRowLoop cols minGross rs bestYear bestTitle
         | _, _ => earliestRowLoop cols minGross rs bestYear bestTitle) := rfl

set_option maxHeartbeats 4000000 in
set_option maxRecDepth 4000 in
/-- C5: `find_earliest_film_over_amount` on the fixed fallback data with
minimum revenue `1.5` returns `"Titanic"` — the title of the minimum-year
record (year 1997) among the fallback records whose extracted revenue is
at least `1.5` billion (here: all ten records qualify). -/
theorem claim_C5_earliest_titanic :
    findEarliestFilmOverAmount sampleFilmsData 1.5 = "Titanic" := by
  have hv1 : dfRow ["rank", "title", "worldwide_gross", "year", "peak"]
      [("rank", CellValue.vInt 1), ("title", CellValue.vStr "Avatar"), ("worldwide_gross", CellValue.vStr "$2.923 billion"), ("year", CellValue.vInt 2009), ("peak", CellValue.vInt 1)]
      = [CellValue.vInt 1, CellValue.vStr "Avatar", CellValue.vStr "$2.923 billion", CellValue.vInt 2009, CellValue.vInt 1] := by decide
  have hv2 : dfRow ["rank", "title", "worldwide_gross", "year", "peak"]
      [("rank", CellValue.vInt 2), ("title", CellValue.vStr "Avengers: Endgame"), ("worldwide_gross", CellValue.vStr "$2.798 billion"), ("year", CellValue.vInt 2019), ("peak", CellValue.vInt 1)]
      = [CellValue.vInt 2, CellValue.vStr "Avengers: Endgame", CellValue.vStr "$2.798 billion", CellValue.vInt 2019, CellValue.vInt 1] := by decide
  have hv3 : dfRow ["rank", "title", "worldwide_gross", "year", "peak"]
      [("rank", CellValue.vInt 3), ("title", CellValue.vStr "Avatar: The Way of Water"), ("worldwide_gross", CellValue.vStr "$2.320 billion"), ("year", CellValue.vInt 2022), ("peak", CellValue.vInt 3)]
      = [CellValue.vInt 3, CellValue.vStr "Avatar: The Way of Water", CellValue.vStr "$2.320 billion", CellValue.vInt 2022, CellValue.vInt 3] := by decide
  have hv4 : dfRow ["rank", "title", "worldwide_gross", "year", "peak"]
      [("rank", CellValue.vInt 4), ("title", CellValue.vStr "Titanic"), ("worldwide_gross", CellValue.vStr "$2.257 billion"), ("year", CellValue.vInt 1997), ("peak", CellValue.vInt 1)]
      = [CellValue.vInt 4, CellValue.vStr "Titanic", CellValue.vStr "$2.257 billion", CellValue.vInt 1997, CellValue.vInt 1] := by decide
  have hv5 : dfRow ["rank", "title", "worldwide_gross", "year", "peak"]
      [("rank", CellValue.vInt 5), ("title", CellValue.vStr "Star Wars: The Force Awakens"), ("worldwide_gross", CellValue.vStr "$2.071 billion"), ("year", CellValue.vInt 2015), ("peak", CellValue.vInt 5)]
      = [CellValue.vInt 5, CellValue.vStr "Star Wars: The Force Awakens", CellValue.vStr "$2.071 billion", CellValue.vInt 2015, CellValue.vInt 5] := by decide
  have hv6 : dfRow ["rank", "title", "worldwide_gross", "year", "peak"]
      [("rank", CellValue.vInt 6), ("title", CellValue.vStr "Avengers: Infinity War"), ("worldwide_gross", CellValue.vStr "$2.048 billion"), ("year", CellValue.vInt 2018), ("peak", CellValue.vInt 6)]
      = [CellValue.vInt 6, CellValue.vStr "Avengers: Infinity War", CellValue.vStr "$2.048 billion", CellValue.vInt 2018, CellValue.vInt 6] := by decide
  have hv7 : dfRow ["rank", "title", "worldwide_gross", "year", "peak"]
      [("rank", CellValue.vInt 7), ("title", CellValue.vStr "Spider-Man: No Way Home"), ("worldwide_gross", CellValue.vStr "$1.921 billion"), ("year", CellValue.vInt 2021), ("peak", CellValue.vInt 7)]
      = [CellValue.vInt 7, CellValue.vStr "Spider-Man: No Way Home", CellValue.vStr "$1.921 billion", CellValue.vInt 2021, CellValue.vInt 7] := by decide
  have hv8 : dfRow ["rank", "title", "worldwide_gross", "year", "peak"]
      [("rank", CellValue.vInt 8), ("title", CellValue.vStr "Jurassic World"), ("worldwide_gross", CellValue.vStr "$1.672 billion"), ("year", CellValue.vInt 2015), ("peak", CellValue.vInt 8)]
      = [CellValue.vInt 8, CellValue.vStr "Jurassic World", CellValue.vStr "$1.672 billion", CellValue.vInt 2015, CellValue.vInt 8] := by decide
  have hv9 : dfRow ["rank", "title", "worldwide_gross", "year", "peak"]
      [("rank", CellValue.vInt 9), ("title", CellValue.vStr "The Lion King"), ("worldwide_gross", CellValue.vStr "$1.657 billion"), ("year", CellValue.vInt 2019), ("peak", CellValue.vInt 9)]
      = [CellValue.vInt 9, CellValue.vStr "The Lion King", CellValue.vStr "$1.657 billion", CellValue.vInt 2019, CellValue.vInt 9] := by decide
  have hv10 : dfRow ["rank", "title", "worldwide_gross", "year", "peak"]
      [("rank", CellValue.vInt 10), ("title", CellValue.vStr "The Avengers"), ("worldwide_gross", CellValue.vStr "$1.519 billion"), ("year", CellValue.vInt 2012), ("peak", CellValue.vInt 10)]
      = [CellValue.vInt 10, CellValue.vStr "The Avengers", CellValue.vStr "$1.519 billion", CellValue.vInt 2012, CellValue.vInt 10] := by decide
  have hy1 : extractYearFromRow [CellValue.vInt 1, CellValue.vStr "Avatar", CellValue.vStr "$2.923 billion", CellValue.vInt 2009, CellValue.vInt 1]
      = some 2009 := by decide
  have hy2 : extractYearFromRow [CellValue.vInt 2, CellValue.vStr "Avengers: Endgame", CellValue.vStr "$2.798 billion", CellValue.vInt 2019, CellValue.vInt 1]
      = some 2019 := by decide
  have hy3 : extractYearFromRow [CellValue.vInt 3, CellValue.vStr "Avatar: The Way of Water", CellValue.vStr "$2.320 billion", CellValue.vInt 2022, CellValue.vInt 3]
      = some 2022 := by decide
  have hy4 : extractYearFromRow [CellValue.vInt 4, CellValue.vStr "Titanic", CellValue.vStr "$2.257 billion", CellValue.vInt 1997, CellValue.vInt 1]
      = some 1997 := by decide
  have hy5 : extractYearFromRow [CellValue.vInt 5, CellValue.vStr "Star Wars: The Force Awakens", CellValue.vStr "$2.071 billion", CellValue.vInt 2015, CellValue.vInt 5]
      = some 2015 := by decide
  have hy6 : extractYearFromRow [CellValue.vInt 6, CellValue.vStr "Avengers: Infinity War", CellValue.vStr "$2.048 billion", CellValue.vInt 2018, CellValue.vInt 6]
      = some 2018 := by decide
  have hy7 : extractYearFromRow [CellValue.vInt 7, CellValue.vStr "Spider-Man: No Way Home", CellValue.vStr "$1.921 billion", CellValue.vInt 2021, CellValue.vInt 7]
      = some 2021 := by decide
  have hy8 : extractYearFromRow [CellValue.vInt 8, CellValue.vStr "Jurassic World", CellValue.vStr "$1.672 billion", CellValue.vInt 2015, CellValue.vInt 8]
      = some 2015 := by decide
  have hy9 : extractYearFromRow [CellValue.vInt 9, CellValue.vStr "The Lion King", CellValue.vStr "$1.657 billion", CellValue.vInt 2019, CellValue.vInt 9]
      = some 2019 := by decide
  have hy10 : extractYearFromRow [CellValue.vInt 10, CellValue.vStr "The Avengers", CellValue.vStr "$1.519 billion", CellValue.vInt 2012, CellValue.vInt 10]
      = some 2012 := by decide
  have hr1 : extractRevenueBillions [CellValue.vInt 1, CellValue.vStr "Avatar", CellValue.vStr "$2.923 billion", CellValue.vInt 2009, CellValue.vInt 1]
      = some (2.923 : ℚ) := by
    norm_num +decide [extractRevenueBillions, revenueValueStr, revenueScale,
      pyFloatOfRun, digitsToNat, numberRuns, runsOf, runsOfAux, removeChar,
      pyStr, intToStr, natToStr, natDigitsRev, digitChar10, cellIsNa,
      revenueKeywords, isDigitDot,
      toNatChar0, toNatChar1, toNatChar2, toNatChar3, toNatChar4, toNatChar5,
      toNatChar6, toNatChar7, toNatChar8, toNatChar9]
  have hr2 : extractRevenueBillions [CellValue.vInt 2, CellValue.vStr "Avengers: Endgame", CellValue.vStr "$2.798 billion", CellValue.vInt 2019, CellValue.vInt 1]
      = some (2.798 : ℚ) := by
    norm_num +decide [extractRevenueBillions, revenueValueStr, revenueScale,
      pyFloatOfRun, digitsToNat, numberRuns, runsOf, runsOfAux, removeChar,
      pyStr, intToStr, natToStr, natDigitsRev, digitChar10, cellIsNa,
      revenueKeywords, isDigitDot,
      toNatChar0, toNatChar1, toNatChar2, toNatChar3, toNatChar4, toNatChar5,
      toNatChar6, toNatChar7, toNatChar8, toNatChar9]
  have hr3 : extractRevenueBillions [CellValue.vInt 3, CellValue.vStr "Avatar: The Way of Water", CellValue.vStr "$2.320 billion", CellValue.vInt 2022, CellValue.vInt 3]
      = some (2.320 : ℚ) := by
    norm_num +decide [extractRevenueBillions, revenueValueStr, revenueScale,
      pyFloatOfRun, digitsToNat, numberRuns, runsOf, runsOfAux, removeChar,
      pyStr, intToStr, natToStr, natDigitsRev, digitChar10, cellIsNa,
      revenueKeywords, isDigitDot,
      toNatChar0, toNatChar1, toNatChar2, toNatChar3, toNatChar4, toNatChar5,
      toNatChar6, toNatChar7, toNatChar8, toNatChar9]
  have hr4 : extractRevenueBillions [CellValue.vInt 4, CellValue.vStr "Titanic", CellValue.vStr "$2.257 billion", CellValue.vInt 1997, CellValue.vInt 1]
      = some (2.257 : ℚ) := by
    norm_num +decide [extractRevenueBillions, revenueValueStr, revenueScale,
      pyFloatOfRun, digitsToNat, numberRuns, runsOf, runsOfAux, removeChar,
      pyStr, intToStr, natToStr, natDigitsRev, digitChar10, cellIsNa,
      revenueKeywords, isDigitDot,
      toNatChar0, toNatChar1, toNatChar2, toNatChar3, toNatChar4, toNatChar5,
      toNatChar6, toNatChar7, toNatChar8, toNatChar9]
  have hr5 : extractRevenueBillions [CellValue.vInt 5, CellValue.vStr "Star Wars: The Force Awakens", CellValue.vStr "$2.071 billion", CellValue.vInt 2015, CellValue.vInt 5]
      = some (2.071 : ℚ) := by
    norm_num +decide [extractRevenueBillions, revenueValueStr, revenueScale,
      pyFloatOfRun, digitsToNat, numberRuns, runsOf, runsOfAux, removeChar,
      pyStr, intToStr, natToStr, natDigitsRev, digitChar10, cellIsNa,
      revenueKeywords, isDigitDot,
      toNatChar0, toNatChar1, toNatChar2, toNatChar3, toNatChar4, toNatChar5,
      toNatChar6, toNatChar7, toNatChar8, toNatChar9]
  have hr6 : extractRevenueBillions [CellValue.vInt 6, CellValue.vStr "Avengers: Infinity War", CellValue.vStr "$2.048 billion", CellValue.vInt 2018, CellValue.vInt 6]
      = some (2.048 : ℚ) := by
    norm_num +decide [extractRevenueBillions, revenueValueStr, revenueScale,
      pyFloatOfRun, digitsToNat, numberRuns, runsOf, runsOfAux, removeChar,
      pyStr, intToStr, natToStr, natDigitsRev, digitChar10, cellIsNa,
      revenueKeywords, isDigitDot,
      toNatChar0, toNatChar1, toNatChar2, toNatChar3, toNatChar4, toNatChar5,
      toNatChar6, toNatChar7, toNatChar8, toNatChar9]
  have hr7 : extractRevenueBillions [CellValue.vInt 7, CellValue.vStr "Spider-Man: No Way Home", CellValue.vStr "$1.921 billion", CellValue.vInt 2021, CellValue.vInt 7]
      = some (1.921 : ℚ) := by
    norm_num +decide [extractRevenueBillions, revenueValueStr, revenueScale,
      pyFloatOfRun, digitsToNat, numberRuns, runsOf, runsOfAux, removeChar,
      pyStr, intToStr, natToStr, natDigitsRev, digitChar10, cellIsNa,
      revenueKeywords, isDigitDot,
      toNatChar0, toNatChar1, toNatChar2, toNatChar3, toNatChar4, toNatChar5,
      toNatChar6, toNatChar7, toNatChar8, toNatChar9]
  have hr8 : extractRevenueBillions [CellValue.vInt 8, CellValue.vStr "Jurassic World", CellValue.vStr "$1.672 billion", CellValue.vInt 2015, CellValue.vInt 8]
      = some (1.672 : ℚ) := by
    norm_num +decide [extractRevenueBillions, revenueValueStr, revenueScale,
      pyFloatOfRun, digitsToNat, numberRuns, runsOf, runsOfAux, removeChar,
      pyStr, intToStr, natToStr, natDigitsRev, digitChar10, cellIsNa,
      revenueKeywords, isDigitDot,
      toNatChar0, toNatChar1, toNatChar2, toNatChar3, toNatChar4, toNatChar5,
      toNatChar6, toNatChar7, toNatChar8, toNatChar9]
  have hr9 : extractRevenueBillions [CellValue.vInt 9, CellValue.vStr "The Lion King", CellValue.vStr "$1.657 billion", CellValue.vInt 2019, CellValue.vInt 9]
      = some (1.657 : ℚ) := by
    norm_num +decide [extractRevenueBillions, revenueValueStr, revenueScale,
      pyFloatOfRun, digitsToNat, numberRuns, runsOf, runsOfAux, removeChar,
      pyStr, intToStr, natToStr, natDigitsRev, digitChar10, cellIsNa,
      revenueKeywords, isDigitDot,
      toNatChar0, toNatChar1, toNatChar2, toNatChar3, toNatChar4, toNatChar5,
      toNatChar6, toNatChar7, toNatChar8, toNatChar9]
  have hr10 : extractRevenueBillions [CellValue.vInt 10, CellValue.vStr "The Avengers", CellValue.vStr "$1.519 billion", CellValue.vInt 2012, CellValue.vInt 10]
      = some (1.519 : ℚ) := by
    norm_num +decide [extractRevenueBillions, revenueValueStr, revenueScale,
      pyFloatOfRun, digitsToNat, numberRuns, runsOf, runsOfAux, removeChar,
      pyStr, intToStr, natToStr, natDigitsRev, digitChar10, cellIsNa,
      revenueKeywords, isDigitDot,
      toNatChar0, toNatChar1, toNatChar2, toNatChar3, toNatChar4, toNatChar5,
      toNatChar6, toNatChar7, toNatChar8, toNatChar9]
  have ht1 : extractTitleFromRow ["rank", "title", "worldwide_gross", "year", "peak"]
      [CellValue.vInt 1, CellValue.vStr "Avatar", CellValue.vStr "$2.923 billion", CellValue.vInt 2009, CellValue.vInt 1] = "Avatar" := by decide
  have ht4 : extractTitleFromRow ["rank", "title", "worldwide_gross", "year", "peak"]
      [CellValue.vInt 4, CellValue.vStr "Titanic", CellValue.vStr "$2.257 billion", CellValue.vInt 1997, CellValue.vInt 1] = "Titanic" := by decide
  have s10 : earliestRowLoop ["rank", "title", "worldwide_gross", "year", "peak"] ((3 : ℚ) / 2) [] (some 1997) "Titanic" = "Titanic" := rfl
  have s9 : earliestRowLoop ["rank", "title", "worldwide_gross", "year", "peak"] ((3 : ℚ) / 2)
      [[("rank", CellValue.vInt 10), ("title", CellValue.vStr "The Avengers"), ("worldwide_gross", CellValue.vStr "$1.519 billion"), ("year", CellValue.vInt 2012), ("peak", CellValue.vInt 10)]]
      (some 1997) "Titanic" = "Titanic" := by
    rw [earliestRowLoop_cons]
    simp only [hv10, hy10, hr10]
    norm_num
    exact s10
  have s8 : earliestRowLoop ["rank", "title", "worldwide_gross", "year", "peak"] ((3 : ℚ) / 2)
      [[("rank", CellValue.vInt 9), ("title", CellValue.vStr "The Lion King"), ("worldwide_gross", CellValue.vStr "$1.657 billion"), ("year", CellValue.vInt 2019), ("peak", CellValue.vInt 9)],
        [("rank", CellValue.vInt 10), ("title", CellValue.vStr "The Avengers"), ("worldwide_gross", CellValue.vStr "$1.519 billion"), ("year", CellValue.vInt 2012), ("peak", CellValue.vInt 10)]]
      (some 1997) "Titanic" = "Titanic" := by
    rw [earliestRowLoop_cons]
    simp only [hv9, hy9, hr9]
    norm_num
    exact s9
  have s7 : earliestRowLoop ["rank", "title", "worldwide_gross", "year", "peak"] ((3 : ℚ) / 2)
      [[("rank", CellValue.vInt 8), ("title", CellValue.vStr "Jurassic World"), ("worldwide_gross", CellValue.vStr "$1.672 billion"), ("year", CellValue.vInt 2015), ("peak", CellValue.vInt 8)],
        [("rank", CellValue.vInt 9), ("title", CellValue.vStr "The Lion King"), ("worldwide_gross", CellValue.vStr "$1.657 billion"), ("year", CellValue.vInt 2019), ("peak", CellValue.vInt 9)],
        [("rank", CellValue.vInt 10), ("title", CellValue.vStr "The Avengers"), ("worldwide_gross", CellValue.vStr "$1.519 billion"), ("year", CellValue.vInt 2012), ("peak", CellValue.vInt 10)]]
      (some 1997) "Titanic" = "Titanic" := by
    rw [earliestRowLoop_cons]
    simp only [hv8, hy8, hr8]
    norm_num
    exact s8
  have s6 : earliestRowLoop ["rank", "title", "worldwide_gross", "year", "peak"] ((3 : ℚ) / 2)
      [[("rank", CellValue.vInt 7), ("title", CellValue.vStr "Spider-Man: No Way Home"), ("worldwide_gross", CellValue.vStr "$1.921 billion"), ("year", CellValue.vInt 2021), ("peak", CellValue.vInt 7)],
        [("rank", CellValue.vInt 8), ("title", CellValue.vStr "Jurassic World"), ("worldwide_gross", CellValue.vStr "$1.672 billion"), ("year", CellValue.vInt 2015), ("peak", CellValue.vInt 8)],
        [("rank", CellValue.vInt 9), ("title", CellValue.vStr "The Lion King"), ("worldwide_gross", CellValue.vStr "$1.657 billion"), ("year", CellValue.vInt 2019), ("peak", CellValue.vInt 9)],
        [("rank", CellValue.vInt 10), ("title", CellValue.vStr "The Avengers"), ("worldwide_gross", CellValue.vStr "$1.519 billion"), ("year", CellValue.vInt 2012), ("peak", CellValue.vInt 10)]]
      (some 1997) "Titanic" = "Titanic" := by
    rw [earliestRowLoop_cons]
    simp only [hv7, hy7, hr7]
    norm_num
    exact s7
  have s5 : earliestRowLoop ["rank", "title", "worldwide_gross", "year", "peak"] ((3 : ℚ) / 2)
      [[("rank", CellValue.vInt 6), ("title", CellValue.vStr "Avengers: Infinity War"), ("worldwide_gross", CellValue.vStr "$2.048 billion"), ("year", CellValue.vInt 2018), ("peak", CellValue.vInt 6)],
        [("rank", CellValue.vInt 7), ("title", CellValue.vStr "Spider-Man: No Way Home"), ("worldwide_gross", CellValue.vStr "$1.921 billion"), ("year", CellValue.vInt 2021), ("peak", CellValue.vInt 7)],
        [("rank", CellValue.vInt 8), ("title", CellValue.vStr "Jurassic World"), ("worldwide_gross", CellValue.vStr "$1.672 billion"), ("year", CellValue.vInt 2015), ("peak", CellValue.vInt 8)],
        [("rank", CellValue.vInt 9), ("title", CellValue.vStr "The Lion King"), ("worldwide_gross", CellValue.vStr "$1.657 billion"), ("year", CellValue.vInt 2019), ("peak", CellValue.vInt 9)],
        [("rank", CellValue.vInt 10), ("title", CellValue.vStr "The Avengers"), ("worldwide_gross", CellValue.vStr "$1.519 billion"), ("year", CellValue.vInt 2012), ("peak", CellValue.vInt 10)]]
      (some 1997) "Titanic" = "Titanic" := by
    rw [earliestRowLoop_cons]
    simp only [hv6, hy6, hr6]
    norm_num
    exact s6
  have s4 : earliestRowLoop ["rank", "title", "worldwide_gross", "year", "peak"] ((3 : ℚ) / 2)
      [[("rank", CellValue.vInt 5), ("title", CellValue.vStr "Star Wars: The Force Awakens"), ("worldwide_gross", CellValue.vStr "$2.071 billion"), ("year", CellValue.vInt 2015), ("peak", CellValue.vInt 5)],
        [("rank", CellValue.vInt 6), ("title", CellValue.vStr "Avengers: Infinity War"), ("worldwide_gross", CellValue.vStr "$2.048 billion"), ("year", CellValue.vInt 2018), ("peak", CellValue.vInt 6)],
        [("rank", CellValue.vInt 7), ("title", CellValue.vStr "Spider-Man: No Way Home"), ("worldwide_gross", CellValue.vStr "$1.921 billion"), ("year", CellValue.vInt 2021), ("peak", CellValue.vInt 7)],
        [("rank", CellValue.vInt 8), ("title", CellValue.vStr "Jurassic World"), ("worldwide_gross", CellValue.vStr "$1.672 billion"), ("year", CellValue.vInt 2015), ("peak", CellValue.vInt 8)],
        [("rank", CellValue.vInt 9), ("title", CellValue.vStr "The Lion King"), ("worldwide_gross", CellValue.vStr "$1.657 billion"), ("year", CellValue.vInt 2019), ("peak", CellValue.vInt 9)],
        [("rank", CellValue.vInt 10), ("title", CellValue.vStr "The Avengers"), ("worldwide_gross", CellValue.vStr "$1.519 billion"), ("year", CellValue.vInt 2012), ("peak", CellValue.vInt 10)]]
      (some 1997) "Titanic" = "Titanic" := by
    rw [earliestRowLoop_cons]
    simp only [hv5, hy5, hr5]
    norm_num
    exact s5
  have s3 : earliestRowLoop ["rank", "title", "worldwide_gross", "year", "peak"] ((3 : ℚ) / 2)
      [[("rank", CellValue.vInt 4), ("title", CellValue.vStr "Titanic"), ("worldwide_gross", CellValue.vStr "$2.257 billion"), ("year", CellValue.vInt 1997), ("peak", CellValue.vInt 1)],
        [("rank", CellValue.vInt 5), ("title", CellValue.vStr "Star Wars: The Force Awakens"), ("worldwide_gross", CellValue.vStr "$2.071 billion"), ("year", CellValue.vInt 2015), ("peak", CellValue.vInt 5)],
        [("rank", CellValue.vInt 6), ("title", CellValue.vStr "Avengers: Infinity War"), ("worldwide_gross", CellValue.vStr "$2.048 billion"), ("year", CellValue.vInt 2018), ("peak", CellValue.vInt 6)],
        [("rank", CellValue.vInt 7), ("title", CellValue.vStr "Spider-Man: No Way Home"), ("worldwide_gross", CellValue.vStr "$1.921 billion"), ("year", CellValue.vInt 2021), ("peak", CellValue.vInt 7)],
        [("rank", CellValue.vInt 8), ("title", CellValue.vStr "Jurassic World"), ("worldwide_gross", CellValue.vStr "$1.672 billion"), ("year", CellValue.vInt 2015), ("peak", CellValue.vInt 8)],
        [("rank", CellValue.vInt 9), ("title", CellValue.vStr "The Lion King"), ("worldwide_gross", CellValue.vStr "$1.657 billion"), ("year", CellValue.vInt 2019), ("peak", CellValue.vInt 9)],
        [("rank", CellValue.vInt 10), ("title", CellValue.vStr "The Avengers"), ("worldwide_gross", CellValue.vStr "$1.519 billion"), ("year", CellValue.vInt 2012), ("peak", CellValue.vInt 10)]]
      (some 2009) "Avatar" = "Titanic" := by
    rw [earliestRowLoop_cons]
    simp only [hv4, hy4, hr4, ht4]
    norm_num
    exact s4
  have s2 : earliestRowLoop ["rank", "title", "worldwide_gross", "year", "peak"] ((3 : ℚ) / 2)
      [[("rank", CellValue.vInt 3), ("title", CellValue.vStr "Avatar: The Way of Water"), ("worldwide_gross", CellValue.vStr "$2.320 billion"), ("year", CellValue.vInt 2022), ("peak", CellValue.vInt 3)],
        [("rank", CellValue.vInt 4), ("title", CellValue.vStr "Titanic"), ("worldwide_gross", CellValue.vStr "$2.257 billion"), ("year", CellValue.vInt 1997), ("peak", CellValue.vInt 1)],
        [("rank", CellValue.vInt 5), ("title", CellValue.vStr "Star Wars: The Force Awakens"), ("worldwide_gross", CellValue.vStr "$2.071 billion"), ("year", CellValue.vInt 2015), ("peak", CellValue.vInt 5)],
        [("rank", CellValue.vInt 6), ("title", CellValue.vStr "Avengers: Infinity War"), ("worldwide_gross", CellValue.vStr "$2.048 billion"), ("year", CellValue.vInt 2018), ("peak", CellValue.vInt 6)],
        [("rank", CellValue.vInt 7), ("title", CellValue.vStr "Spider-Man: No Way Home"), ("worldwide_gross", CellValue.vStr "$1.921 billion"), ("year", CellValue.vInt 2021), ("peak", CellValue.vInt 7)],
        [("rank", CellValue.vInt 8), ("title", CellValue.vStr "Jurassic World"), ("worldwide_gross", CellValue.vStr "$1.672 billion"), ("year", CellValue.vInt 2015), ("peak", CellValue.vInt 8)],
        [("rank", CellValue.vInt 9), ("title", CellValue.vStr "The Lion King"), ("worldwide_gross", CellValue.vStr "$1.657 billion"), ("year", CellValue.vInt 2019), ("peak", CellValue.vInt 9)],
        [("rank", CellValue.vInt 10), ("title", CellValue.vStr "The Avengers"), ("worldwide_gross", CellValue.vStr "$1.519 billion"), ("year", CellValue.vInt 2012), ("peak", CellValue.vInt 10)]]
      (some 2009) "Avatar" = "Titanic" := by
    rw [earliestRowLoop_cons]
    simp only [hv3, hy3, hr3]
    norm_num
    exact s3
  have s1 : earliestRowLoop ["rank", "title", "worldwide_gross", "year", "peak"] ((3 : ℚ) / 2)
      [[("rank", CellValue.vInt 2), ("title", CellValue.vStr "Avengers: Endgame"), ("worldwide_gross", CellValue.vStr "$2.798 billion"), ("year", CellValue.vInt 2019), ("peak", CellValue.vInt 1)],
        [("rank", CellValue.vInt 3), ("title", CellValue.vStr "Avatar: The Way of Water"), ("worldwide_gross", CellValue.vStr "$2.320 billion"), ("year", CellValue.vInt 2022), ("peak", CellValue.vInt 3)],
        [("rank", CellValue.vInt 4), ("title", CellValue.vStr "Titanic"), ("worldwide_gross", CellValue.vStr "$2.257 billion"), ("year", CellValue.vInt 1997), ("peak", CellValue.vInt 1)],
        [("rank", CellValue.vInt 5), ("title", CellValue.vStr "Star Wars: The Force Awakens"), ("worldwide_gross", CellValue.vStr "$2.071 billion"), ("year", CellValue.vInt 2015), ("peak", CellValue.vInt 5)],
        [("rank", CellValue.vInt 6), ("title", CellValue.vStr "Avengers: Infinity War"), ("worldwide_gross", CellValue.vStr "$2.048 billion"), ("year", CellValue.vInt 2018), ("peak", CellValue.vInt 6)],
        [("rank", CellValue.vInt 7), ("title", CellValue.vStr "Spider-Man: No Way Home"), ("worldwide_gross", CellValue.vStr "$1.921 billion"), ("year", CellValue.vInt 2021), ("peak", CellValue.vInt 7)],
        [("rank", CellValue.vInt 8), ("title", CellValue.vStr "Jurassic World"), ("worldwide_gross", CellValue.vStr "$1.672 billion"), ("year", CellValue.vInt 2015), ("peak", CellValue.vInt 8)],
        [("rank", CellValue.vInt 9), ("title", CellValue.vStr "The Lion King"), ("worldwide_gross", CellValue.vStr "$1.657 billion"), ("year", CellValue.vInt 2019), ("peak", CellValue.vInt 9)],
        [("rank", CellValue.vInt 10), ("title", CellValue.vStr "The Avengers"), ("worldwide_gross", CellValue.vStr "$1.519 billion"), ("year", CellValue.vInt 2012), ("peak", CellValue.vInt 10)]]
      (some 2009) "Avatar" = "Titanic" := by
    rw [earliestRowLoop_cons]
    simp only [hv2, hy2, hr2]
    norm_num
    exact s2
  have s0 : earliestRowLoop ["rank", "title", "worldwide_gross", "year", "peak"] ((3 : ℚ) / 2)
      [[("rank", CellValue.vInt 1), ("title", CellValue.vStr "Avatar"), ("worldwide_gross", CellValue.vStr "$2.923 billion"), ("year", CellValue.vInt 2009), ("peak", CellValue.vInt 1)],
        [("rank", CellValue.vInt 2), ("title", CellValue.vStr "Avengers: Endgame"), ("worldwide_gross", CellValue.vStr "$2.798 billion"), ("year", CellValue.vInt 2019), ("peak", CellValue.vInt 1)],
        [("rank", CellValue.vInt 3), ("title", CellValue.vStr "Avatar: The Way of Water"), ("worldwide_gross", CellValue.vStr "$2.320 billion"), ("year", CellValue.vInt 2022), ("peak", CellValue.vInt 3)],
        [("rank", CellValue.vInt 4), ("title", CellValue.vStr "Titanic"), ("worldwide_gross", CellValue.vStr "$2.257 billion"), ("year", CellValue.vInt 1997), ("peak", CellValue.vInt 1)],
        [("rank", CellValue.vInt 5), ("title", CellValue.vStr "Star Wars: The Force Awakens"), ("worldwide_gross", CellValue.vStr "$2.071 billion"), ("year", CellValue.vInt 2015), ("peak", CellValue.vInt 5)],
        [("rank", CellValue.vInt 6), ("title", CellValue.vStr "Avengers: Infinity War"), ("worldwide_gross", CellValue.vStr "$2.048 billion"), ("year", CellValue.vInt 2018), ("peak", CellValue.vInt 6)],
        [("rank", CellValue.vInt 7), ("title", CellValue.vStr "Spider-Man: No Way Home"), ("worldwide_gross", CellValue.vStr "$1.921 billion"), ("year", CellValue.vInt 2021), ("peak", CellValue.vInt 7)],
        [("rank", CellValue.vInt 8), ("title", CellValue.vStr "Jurassic World"), ("worldwide_gross", CellValue.vStr "$1.672 billion"), ("year", CellValue.vInt 2015), ("peak", CellValue.vInt 8)],
        [("rank", CellValue.vInt 9), ("title", CellValue.vStr "The Lion King"), ("worldwide_gross", CellValue.vStr "$1.657 billion"), ("year", CellValue.vInt 2019), ("peak", CellValue.vInt 9)],
        [("rank", CellValue.vInt 10), ("title", CellValue.vStr "The Avengers"), ("worldwide_gross", CellValue.vStr "$1.519 billion"), ("year", CellValue.vInt 2012), ("peak", CellValue.vInt 10)]]
      (none) "Unknown" = "Titanic" := by
    rw [earliestRowLoop_cons]
    simp only [hv1, hy1, hr1, ht1]
    norm_num
    exact s1
  have hcols : dfColumns
      [[("rank", CellValue.vInt 1), ("title", CellValue.vStr "Avatar"), ("worldwide_gross", CellValue.vStr "$2.923 billion"), ("year", CellValue.vInt 2009), ("peak", CellValue.vInt 1)],
        [("rank", CellValue.vInt 2), ("title", CellValue.vStr "Avengers: Endgame"), ("worldwide_gross", CellValue.vStr "$2.798 billion"), ("year", CellValue.vInt 2019), ("peak", CellValue.vInt 1)],
        [("rank", CellValue.vInt 3), ("title", CellValue.vStr "Avatar: The Way of Water"), ("worldwide_gross", CellValue.vStr "$2.320 billion"), ("year", CellValue.vInt 2022), ("peak", CellValue.vInt 3)],
        [("rank", CellValue.vInt 4), ("title", CellValue.vStr "Titanic"), ("worldwide_gross", CellValue.vStr "$2.257 billion"), ("year", CellValue.vInt 1997), ("peak", CellValue.vInt 1)],
        [("rank", CellValue.vInt 5), ("title", CellValue.vStr "Star Wars: The Force Awakens"), ("worldwide_gross", CellValue.vStr "$2.071 billion"), ("year", CellValue.vInt 2015), ("peak", CellValue.vInt 5)],
        [("rank", CellValue.vInt 6), ("title", CellValue.vStr "Avengers: Infinity War"), ("worldwide_gross", CellValue.vStr "$2.048 billion"), ("year", CellValue.vInt 2018), ("peak", CellValue.vInt 6)],
        [("rank", CellValue.vInt 7), ("title", CellValue.vStr "Spider-Man: No Way Home"), ("worldwide_gross", CellValue.vStr "$1.921 billion"), ("year", CellValue.vInt 2021), ("peak", CellValue.vInt 7)],
        [("rank", CellValue.vInt 8), ("title", CellValue.vStr "Jurassic World"), ("worldwide_gross", CellValue.vStr "$1.672 billion"), ("year", CellValue.vInt 2015), ("peak", CellValue.vInt 8)],
        [("rank", CellValue.vInt 9), ("title", CellValue.vStr "The Lion King"), ("worldwide_gross", CellValue.vStr "$1.657 billion"), ("year", CellValue.vInt 2019), ("peak", CellValue.vInt 9)],
        [("rank", CellValue.vInt 10), ("title", CellValue.vStr "The Avengers"), ("worldwide_gross", CellValue.vStr "$1.519 billion"), ("year", CellValue.vInt 2012), ("peak", CellValue.vInt 10)]]
      = ["rank", "title", "worldwide_gross", "year", "peak"] := by decide
  rw [findEarliestFilmOverAmount, if_neg (by decide)]
  simp only [sampleFilmsData, hcols]
  norm_num
  simp only [s0]
  decide
